import Mathlib

/-!
Shallow embedding of the llm-crawler playground service and the two webhook
emitters, together with proofs about the claims of the specification.

Sources embedded:
* src/services/playground/types.ts (interfaces) and the PlaygroundService
  implementation sharing that file (createJob, startJob, getJob, getProgress,
  failJob, sendWebhook, shouldSendWebhook, setupWebhookHandlers,
  createEmptyResult).
* src/services/crawler/queue-service.ts (QueueService.shouldSendWebhook,
  QueueService.sendWebhook and the four event handlers).
* src/services/playground/plugins/example-plugin.ts (ExamplePlugin).
* src/routes/playground.ts (the plugin list and config built by
  POST /playground/jobs).

Modelling conventions:
* JavaScript values carried opaquely (job input, plugin metrics, summaries)
  are modelled by the inductive `Json`; JS truthiness by `Json.truthy`.
* `Date` timestamps are a logical clock (`Nat`) held in the service state;
  every `new Date()` of the service reads the clock and advances it by one.
  Plugin hooks receive the current clock value (`Date.now()` inside a hook
  reads it without advancing it; no claim observes in-hook time).
* `crypto.randomUUID()` is modelled as an injective function `uuid` of a
  freshness counter held in the state.
* Network I/O of webhook delivery is modelled by an oracle `Nat → Nat → Bool`
  giving the success of attempt `a` of the delivery with index `d`
  (a delivery attempt succeeds iff `fetch` returned an `ok` response).
  Payload bodies are not modelled; a delivery records the outbound event
  name, url, number of attempts and the backoff delays (in seconds) that were
  inserted between attempts.
* Async plugin hooks are modelled as functions returning `Except`; a throw
  inside a hook leaves the context as the hook received it (hooks are
  modelled atomically).
* The `job` object embedded in event payloads is a live reference in the
  source; events here carry the job id (plus plugin name / metrics / message)
  only, which is all any claim observes.
-/

/-- JSON-like JavaScript values (job inputs, plugin metrics, summaries). -/
inductive Json where
  | null
  | bool (b : Bool)
  | num (n : Int)
  | str (s : String)
  | arr (xs : List Json)
  | obj (fields : List (String × Json))

/-- JavaScript truthiness of a value (arrays and objects are always truthy;
`NaN` is not modelled). `null` also stands for `undefined`. -/
def Json.truthy : Json → Bool
  | .null => false
  | .bool b => b
  | .num n => n != 0
  | .str s => s != ""
  | .arr _ => true
  | .obj _ => true

mutual

/-- `JSON.stringify` (string escaping beyond quoting is not modelled; no claim
depends on the rendering of special characters). -/
def Json.stringify : Json → String
  | .null => "null"
  | .bool true => "true"
  | .bool false => "false"
  | .num n => toString n
  | .str s => "\"" ++ s ++ "\""
  | .arr xs => "[" ++ Json.stringifyList xs ++ "]"
  | .obj fs => "\x7b" ++ Json.stringifyObj fs ++ "\x7d"

def Json.stringifyList : List Json → String
  | [] => ""
  | [x] => Json.stringify x
  | x :: y :: xs => Json.stringify x ++ "," ++ Json.stringifyList (y :: xs)

def Json.stringifyObj : List (String × Json) → String
  | [] => ""
  | [kv] => "\"" ++ kv.1 ++ "\":" ++ Json.stringify kv.2
  | kv :: kv2 :: xs =>
    "\"" ++ kv.1 ++ "\":" ++ Json.stringify kv.2 ++ "," ++ Json.stringifyObj (kv2 :: xs)

end

/-- Association-list lookup: JS `Map.get` / property access over string keys. -/
def alookup {α : Type} : List (String × α) → String → Option α
  | [], _ => none
  | kv :: rest, key => if kv.1 == key then some kv.2 else alookup rest key

/-- Association-list update: JS `Map.set` / property assignment. Replaces in
place (preserving insertion order, as JS maps and objects do) or appends. -/
def aset {α : Type} : List (String × α) → String → α → List (String × α)
  | [], key, v => [(key, v)]
  | kv :: rest, key, v =>
    if kv.1 == key then (key, v) :: rest else kv :: aset rest key v

/-- Association-list removal: JS `Map.delete`. -/
def adelete {α : Type} : List (String × α) → String → List (String × α)
  | [], _ => []
  | kv :: rest, key => if kv.1 == key then rest else kv :: adelete rest key

/-- Field access on a JSON object (`m[name]`); `none` stands for `undefined`. -/
def Json.getField : Json → String → Option Json
  | .obj fs, k => alookup fs k
  | _, _ => none

/-- Field access defaulting to `null` where the source would propagate
`undefined` into arithmetic. -/
def Json.getFieldD (j : Json) (k : String) : Json :=
  (Json.getField j k).getD Json.null

/-- Numeric coercion of a JSON value as the example plugin uses its stored
numbers (its stored values are always numbers). -/
def Json.toNum : Json → Int
  | .num n => n
  | _ => 0

/-- `progress.status` values. -/
inductive JobStatus where
  | queued
  | running
  | completed
  | failed
deriving DecidableEq, Repr

/-- WebhookConfig of src/services/playground/types.ts (the crawl side uses the
identical shape). `on` holds outbound event names; over HTTP these are
arbitrary strings, so they are modelled as strings. -/
structure WebhookConfig where
  url : String
  headers : List (String × String)
  retries : Option Nat
  onEvents : Option (List String)

/-- PlaygroundConfig of src/services/playground/types.ts. -/
structure PlaygroundConfig where
  input : Json
  retries : Option Nat
  plugins : Option (List String)
  webhook : Option WebhookConfig
  async : Option Bool

/-- PlaygroundProgress of src/services/playground/types.ts. -/
structure PlaygroundProgress where
  status : JobStatus
  startTime : Nat
  endTime : Option Nat
  error : Option String
  currentPlugin : Option String
  completedPlugins : List String

/-- The `result.error` record `{ message, plugin?, timestamp }`. -/
structure ResultError where
  message : String
  plugin : Option String
  timestamp : Nat

/-- PlaygroundResult of src/services/playground/types.ts. `metrics` entries
are the singleton objects `{ [plugin.name]: metrics }` pushed by startJob,
modelled as name/value pairs; `summary` is the object assembled by
Object.assign, modelled as an ordered key/value list. -/
structure PlaygroundResult where
  config : PlaygroundConfig
  progress : PlaygroundProgress
  metrics : List (String × Json)
  summary : Option (List (String × Json))
  error : Option ResultError

/-- PlaygroundJob of src/services/playground/types.ts. -/
structure PlaygroundJob where
  id : String
  config : PlaygroundConfig
  progress : PlaygroundProgress
  result : Option PlaygroundResult
  priority : Nat
  retries : Nat
  maxRetries : Nat
  createdAt : Nat
  updatedAt : Nat

/-- PlaygroundContext of src/services/playground/types.ts: a single mutable
context object threaded through every plugin of a job. `storage` is the
`new MemoryStorage()` created by startJob. -/
structure PlaygroundContext where
  jobId : String
  input : Json
  output : Option Json
  startTime : Nat
  storage : List (String × Json)

/-- A playground plugin. Absent optional hooks are `none`; a hook that throws
returns `Except.error` with the error message (`String(error)`). `execute`
returns the metric and the updated context. Hooks receive the current logical
time. -/
structure PlaygroundPlugin where
  name : String
  enabled : Bool
  before : Option (PlaygroundContext → Nat → Except String PlaygroundContext)
  execute : PlaygroundContext → Nat → Except String (Json × PlaygroundContext)
  after : Option (PlaygroundContext → Nat → Except String PlaygroundContext)
  summarize : Option (List Json → Except String Json)

/-- The events of PlaygroundEventMap (payload `job` references are carried by
id; see the module comment). -/
inductive PlaygroundEvent where
  | jobStart (jobId : String)
  | jobComplete (jobId : String)
  | jobError (jobId : String) (message : String)
  | pluginStart (jobId : String) (pluginName : String)
  | pluginComplete (jobId : String) (pluginName : String) (metrics : Json)
  | pluginError (jobId : String) (pluginName : String) (message : String)

/-- One webhook delivery as observed on the wire: the outbound event name, the
target url, how many POST attempts were made, and the backoff delays in
seconds inserted before each retry. -/
structure WebhookDelivery where
  event : String
  url : String
  attempts : Nat
  delays : List Nat
deriving DecidableEq, Repr

/-- The observable state of one PlaygroundService instance: the job registry,
the log of emitted events, the log of webhook deliveries, the logical clock
and the freshness counter of the id generator. -/
structure ServiceState where
  jobs : List (String × PlaygroundJob)
  events : List PlaygroundEvent
  deliveries : List WebhookDelivery
  clock : Nat
  nextId : Nat

def initialState : ServiceState :=
  { jobs := [], events := [], deliveries := [], clock := 0, nextId := 0 }

/-- `crypto.randomUUID()` modelled as an injective function of the freshness
counter: ids handed out by one process are pairwise distinct. -/
def uuid (n : Nat) : String :=
  "job-" ++ String.mk (List.replicate n 'x')

namespace Playground

/-- PlaygroundService.sendWebhook retry loop. `outcome a` is the success of
the attempt made while the `retries` counter equals `a`; the fuel is
`maxRetries - retries`. Returns the number of attempts made and the delays
(in seconds) inserted before each retry: after a failed attempt the counter
is incremented and, if attempts remain, the loop sleeps `2 ^ retries`
seconds (`Math.pow(2, retries) * 1000` ms). -/
def sendWebhookLoop (outcome : Nat → Bool) : Nat → Nat → Nat × List Nat
  | 0, _ => (0, [])
  | fuel + 1, r =>
    if outcome r then (1, [])
    else if fuel == 0 then (1, [])
    else
      let rest := sendWebhookLoop outcome fuel (r + 1)
      (rest.1 + 1, 2 ^ (r + 1) :: rest.2)

/-- PlaygroundService.sendWebhook: `maxRetries  = config.retries ?? 3`. -/
def sendWebhook (outcome : Nat → Bool) (retries : Option Nat) : Nat × List Nat :=
  sendWebhookLoop outcome (retries.getD 3) 0

/-- PlaygroundService.shouldSendWebhook. -/
def shouldSendWebhook (job : PlaygroundJob) (eventType : String) : Bool :=
  match job.config.webhook with
  | none => false
  | some w =>
    match w.onEvents with
    | none => true
    | some l => l.contains eventType

/-- The outbound event name each internal event is forwarded under by
setupWebhookHandlers; `none` for events with no webhook handler. -/
def outboundName : PlaygroundEvent → Option String
  | .jobStart _ => some "started"
  | .jobComplete _ => some "completed"
  | .jobError _ _ => some "failed"
  | .pluginComplete _ _ _ => some "progress"
  | .pluginStart _ _ => none
  | .pluginError _ _ _ => none

/-- The deliveries (none or one) produced by the webhook handler of one
emitted event: if the event has a handler and the per-job filter passes, one
POST delivery with its retry attempts is made. `idx` is the index of the
delivery (used to address the outcome oracle). -/
def deliveryOf (oracle : Nat → Nat → Bool) (job : PlaygroundJob)
    (e : PlaygroundEvent) (idx : Nat) : List WebhookDelivery :=
  match outboundName e with
  | none => []
  | some t =>
    if shouldSendWebhook job t then
      match job.config.webhook with
      | some w =>
        let res := sendWebhook (oracle idx) w.retries
        [⟨t, w.url, res.1, res.2⟩]
      | none => []
    else []

/-- `this.emit(event, ...)` together with the webhook handler registered for
it: the event is appended to the log, and the handler's delivery (if any) to
the delivery log. `oracle d a` is the outcome of attempt `a` of delivery
number `d`. -/
def emitEvent (oracle : Nat → Nat → Bool) (job : PlaygroundJob)
    (e : PlaygroundEvent) (s : ServiceState) : ServiceState :=
  { s with
    events := s.events ++ [e]
    deliveries := s.deliveries ++ deliveryOf oracle job e s.deliveries.length }

end Playground

namespace Queue

/-- The part of the crawl job configuration the queue-service webhook emitter
reads (types.improved.ts is not part of the embedded sources; only the
webhook sub-object is relevant to any claim). -/
structure CrawlConfig where
  url : String
  webhook : Option WebhookConfig

/-- The part of a crawl job the queue-service webhook emitter reads. -/
structure CrawlJob where
  id : String
  config : CrawlConfig

/-- QueueService.shouldSendWebhook. -/
def shouldSendWebhook (job : CrawlJob) (eventType : String) : Bool :=
  match job.config.webhook with
  | none => false
  | some w =>
    match w.onEvents with
    | none => true
    | some l => l.contains eventType

/-- QueueService.sendWebhook retry loop: `for (attempt = 0; attempt < retries;
attempt++)`, with a sleep of `2 ^ attempt` seconds after a failed attempt
when `attempt < retries - 1`. Returns attempts made and delays inserted. -/
def sendWebhookLoop (outcome : Nat → Bool) : Nat → Nat → Nat × List Nat
  | 0, _ => (0, [])
  | fuel + 1, attempt =>
    if outcome attempt then (1, [])
    else if fuel == 0 then (1, [])
    else
      let rest := sendWebhookLoop outcome fuel (attempt + 1)
      (rest.1 + 1, 2 ^ attempt :: rest.2)

/-- QueueService.sendWebhook: the `retries` parameter defaults to 3 when the
caller passes `undefined`. -/
def sendWebhook (outcome : Nat → Bool) (retries : Option Nat) : Nat × List Nat :=
  sendWebhookLoop outcome (retries.getD 3) 0

/-- The crawl events queue-service subscribes to. -/
inductive CrawlEvent where
  | jobStart
  | jobComplete
  | jobError
  | pageComplete
deriving DecidableEq

/-- Outbound names used by the four queue-service handlers. -/
def outboundName : CrawlEvent → String
  | .jobStart => "started"
  | .jobComplete => "completed"
  | .jobError => "failed"
  | .pageComplete => "progress"

/-- One queue-service event handler: filter, then deliver. handleJobComplete
and handleJobError pass `config.webhook.retries` to sendWebhook; the other
two handlers omit the argument, so its default of 3 applies. -/
def handleEvent (oracle : Nat → Bool) (job : CrawlJob) (e : CrawlEvent)
    (deliveries : List WebhookDelivery) : List WebhookDelivery :=
  match job.config.webhook with
  | none => deliveries
  | some w =>
    if shouldSendWebhook job (outboundName e) then
      let r : Option Nat :=
        match e with
        | .jobComplete => w.retries
        | .jobError => w.retries
        | _ => none
      let res := sendWebhook oracle r
      deliveries ++ [⟨outboundName e, w.url, res.1, res.2⟩]
    else deliveries

end Queue

namespace Playground

/-- PlaygroundService.createEmptyResult. -/
def createEmptyResult (job : PlaygroundJob) : PlaygroundResult :=
  { config := job.config
    progress := job.progress
    metrics := []
    summary := none
    error := none }

/-- The state threaded through the plugin loop of startJob: the job object
(mutated in place in the source), the shared context, and the service
state. -/
structure PipelineState where
  job : PlaygroundJob
  ctx : PlaygroundContext
  state : ServiceState

/-- A plugin is skipped when it is disabled or when `config.plugins` is
present and does not contain its name. -/
def pluginSkipped (cfg : PlaygroundConfig) (p : PlaygroundPlugin) : Bool :=
  !p.enabled ||
    (match cfg.plugins with
     | some l => !l.contains p.name
     | none => false)

/-- Running an absent `before` hook is a no-op. -/
def hookBefore (p : PlaygroundPlugin) (ctx : PlaygroundContext) (now : Nat) :
    Except String PlaygroundContext :=
  match p.before with
  | some f => f ctx now
  | none => .ok ctx

/-- Running an absent `after` hook is a no-op. -/
def hookAfter (p : PlaygroundPlugin) (ctx : PlaygroundContext) (now : Nat) :
    Except String PlaygroundContext :=
  match p.after with
  | some f => f ctx now
  | none => .ok ctx

/-- The before/execute/after sequence of one plugin, stopping at the first
hook that throws. Used to state when a plugin "throws". -/
def pluginHooksRun (p : PlaygroundPlugin) (ctx : PlaygroundContext) (now : Nat) :
    Except String (Json × PlaygroundContext) :=
  match hookBefore p ctx now with
  | .error msg => .error msg
  | .ok ctx1 =>
    match p.execute ctx1 now with
    | .error msg => .error msg
    | .ok mc =>
      match hookAfter p mc.2 now with
      | .error msg => .error msg
      | .ok ctx3 => .ok (mc.1, ctx3)

/-- The catch-block of the plugin loop: emit `pluginError`, then store the
error on `result.error` (mutating the pre-existing result object; nothing
happens if the result is absent) and continue with the next plugin. The
`error.timestamp` is a fresh `new Date()`. -/
def pluginFail (oracle : Nat → Nat → Bool) (id : String) (p : PlaygroundPlugin)
    (msg : String) (ps : PipelineState) : PipelineState :=
  let s1 := emitEvent oracle ps.job (.pluginError id p.name msg) ps.state
  let job1 :=
    { ps.job with
      result :=
        match ps.job.result with
        | some res =>
          some { res with error := some { message := msg, plugin := some p.name, timestamp := s1.clock } }
        | none => none }
  { ps with job := job1, state := { s1 with clock := s1.clock + 1 } }

/-- `job.result.metrics.push({ [plugin.name]: metrics })` (guarded on the
result being present, as in the source). -/
def pushMetrics (r : Option PlaygroundResult) (name : String) (m : Json) :
    Option PlaygroundResult :=
  match r with
  | some res => some { res with metrics := res.metrics ++ [(name, m)] }
  | none => none

/-- One iteration of the plugin loop of startJob: skip filtered/disabled
plugins; otherwise set `currentPlugin`, emit `pluginStart`, run
before/execute/after, and on success push the metric, append the plugin name
to `completedPlugins` and emit `pluginComplete`; on a throw fall into the
catch block (`pluginFail`). On failure the context keeps the updates of the
hooks that had already returned. -/
def runOnePlugin (oracle : Nat → Nat → Bool) (id : String) (p : PlaygroundPlugin)
    (ps : PipelineState) : PipelineState :=
  if pluginSkipped ps.job.config p then ps
  else
    let job0 := { ps.job with progress := { ps.job.progress with currentPlugin := some p.name } }
    let s0 := emitEvent oracle job0 (.pluginStart id p.name) ps.state
    match hookBefore p ps.ctx s0.clock with
    | .error msg => pluginFail oracle id p msg { job := job0, ctx := ps.ctx, state := s0 }
    | .ok ctx1 =>
      match p.execute ctx1 s0.clock with
      | .error msg => pluginFail oracle id p msg { job := job0, ctx := ctx1, state := s0 }
      | .ok mc =>
        match hookAfter p mc.2 s0.clock with
        | .error msg => pluginFail oracle id p msg { job := job0, ctx := mc.2, state := s0 }
        | .ok ctx3 =>
          let job1 :=
            { job0 with
              result := pushMetrics job0.result p.name mc.1
              progress :=
                { job0.progress with
                  completedPlugins := job0.progress.completedPlugins ++ [p.name] } }
          let s1 := emitEvent oracle job1 (.pluginComplete id p.name mc.1) s0
          { job := job1, ctx := ctx3, state := s1 }

/-- The `for (const plugin of this.plugins)` loop of startJob. -/
def runPlugins (oracle : Nat → Nat → Bool) (id : String)
    (plugins : List PlaygroundPlugin) (ps : PipelineState) : PipelineState :=
  match plugins with
  | [] => ps
  | p :: rest => runPlugins oracle id rest (runOnePlugin oracle id p ps)

/-- The argument passed to a plugin's summarize:
`result.metrics.map((m) => m[plugin.name]).filter(Boolean)` — the metric
values recorded under this plugin's name, with falsy values dropped. -/
def summarizeInput (metrics : List (String × Json)) (name : String) : List Json :=
  (metrics.filterMap fun kv => if kv.1 == name then some kv.2 else none).filter
    fun m => m.truthy

/-- The per-plugin summary contributions: every enabled plugin implementing
summarize is called (on its recorded metric values); a throwing summarize
contributes nothing (the source logs and returns `{}`). -/
def summaryEntries (plugins : List PlaygroundPlugin) (metrics : List (String × Json)) :
    List (Option (String × Json)) :=
  (plugins.filter fun p => p.enabled && p.summarize.isSome).map fun p =>
    match p.summarize with
    | some f =>
      match f (summarizeInput metrics p.name) with
      | .ok s => some (p.name, s)
      | .error _ => none
    | none => none

/-- `Object.assign({}, ...summaries)`: fold the contributions into one
object, later entries overwriting earlier ones in place. -/
def buildSummary (plugins : List PlaygroundPlugin) (metrics : List (String × Json)) :
    List (String × Json) :=
  (summaryEntries plugins metrics).foldl
    (fun acc o =>
      match o with
      | some kv => aset acc kv.1 kv.2
      | none => acc)
    []

/-- The part of startJob before the plugin loop: initialize an empty result
(whose `progress` snapshots the current progress object), move the progress
to `running` with a fresh `startTime` and empty `completedPlugins` (other
fields, including a stale `endTime` or `error`, are kept by the spread),
bump `updatedAt`, emit `jobStart`, and create the shared context with a
fresh `MemoryStorage`. -/
def startJobInit (oracle : Nat → Nat → Bool) (s : ServiceState) (id : String)
    (job : PlaygroundJob) : PipelineState :=
  let job := { job with result := some (createEmptyResult job) }
  let job :=
    { job with
      progress :=
        { job.progress with
          status := .running
          startTime := s.clock
          completedPlugins := [] } }
  let job := { job with updatedAt := s.clock + 1 }
  let s1 := { s with clock := s.clock + 2 }
  let s2 := emitEvent oracle job (.jobStart id) s1
  let ctx : PlaygroundContext :=
    { jobId := id
      input := job.config.input
      output := none
      startTime := s2.clock
      storage := [] }
  { job := job, ctx := ctx, state := { s2 with clock := s2.clock + 1 } }

/-- The part of startJob after the plugin loop: attach the assembled summary,
move the progress to `completed` (stamping `endTime`, clearing
`currentPlugin`), bump `updatedAt`, copy the final progress into the result,
emit `jobComplete` and store the job. -/
def startJobFinish (oracle : Nat → Nat → Bool) (plugins : List PlaygroundPlugin)
    (id : String) (ps : PipelineState) : ServiceState × PlaygroundJob :=
  let job := ps.job
  let s := ps.state
  let job :=
    { job with
      result :=
        match job.result with
        | some res => some { res with summary := some (buildSummary plugins res.metrics) }
        | none => none }
  let job :=
    { job with
      progress :=
        { job.progress with
          status := .completed
          endTime := some s.clock
          currentPlugin := none } }
  let job := { job with updatedAt := s.clock + 1 }
  let s1 := { s with clock := s.clock + 2 }
  let job :=
    { job with
      result :=
        match job.result with
        | some res => some { res with progress := job.progress }
        | none => none }
  let s2 := emitEvent oracle job (.jobComplete id) s1
  ({ s2 with jobs := aset s2.jobs id job }, job)

/-- PlaygroundService.startJob. `none` models the `Job not found` throw. The
try/catch around the run is dead in this model: no statement of the try
body can throw (each plugin hook and each summarize call is guarded by its
own inner catch), so `failJob` is never reached from here. -/
def startJob (oracle : Nat → Nat → Bool) (plugins : List PlaygroundPlugin)
    (s : ServiceState) (id : String) : Option (ServiceState × PlaygroundJob) :=
  match alookup s.jobs id with
  | none => none
  | some job =>
    some (startJobFinish oracle plugins id
      (runPlugins oracle id plugins (startJobInit oracle s id job)))

/-- PlaygroundService.createJob: allocate an id, materialize a queued job
(one `new Date()` supplies startTime, createdAt and updatedAt), store it,
and start it immediately. -/
def createJob (oracle : Nat → Nat → Bool) (plugins : List PlaygroundPlugin)
    (s : ServiceState) (config : PlaygroundConfig) :
    Option (ServiceState × PlaygroundJob) :=
  let id := uuid s.nextId
  let job : PlaygroundJob :=
    { id := id
      config := config
      progress :=
        { status := .queued
          startTime := s.clock
          endTime := none
          error := none
          currentPlugin := none
          completedPlugins := [] }
      result := none
      priority := 0
      retries := 0
      maxRetries := config.retries.getD 3
      createdAt := s.clock
      updatedAt := s.clock }
  let s1 := { s with clock := s.clock + 1, nextId := s.nextId + 1, jobs := aset s.jobs id job }
  startJob oracle plugins s1 id

/-- PlaygroundService.getJob (`none` models the `Job not found` throw). -/
def getJob (s : ServiceState) (id : String) : Option PlaygroundJob :=
  alookup s.jobs id

/-- PlaygroundService.getProgress. -/
def getProgress (s : ServiceState) (id : String) : Option PlaygroundProgress :=
  (getJob s id).map fun j => j.progress

/-- PlaygroundService.failJob: unconditionally (no terminal-status guard)
move the progress to `failed` stamping a fresh `endTime` and the error
message, bump `updatedAt`, create the result if absent, copy the progress
into it, overwrite `result.error` with `{ message, timestamp }` (no plugin
field), emit `jobError` and store the job. -/
def failJob (oracle : Nat → Nat → Bool) (s : ServiceState) (id : String)
    (message : String) : Option (ServiceState × PlaygroundJob) :=
  match alookup s.jobs id with
  | none => none
  | some job =>
    let job :=
      { job with
        progress :=
          { job.progress with
            status := .failed
            endTime := some s.clock
            error := some message } }
    let job := { job with updatedAt := s.clock + 1 }
    let s1 := { s with clock := s.clock + 2 }
    let job :=
      match job.result with
      | none => { job with result := some (createEmptyResult job) }
      | some _ => job
    let job :=
      { job with
        result :=
          match job.result with
          | some res =>
            some { res with
                   progress := job.progress
                   error := some { message := message, plugin := none, timestamp := s1.clock } }
          | none => none }
    let s2 := { s1 with clock := s1.clock + 1 }
    let s3 := emitEvent oracle job (.jobError id message) s2
    some ({ s3 with jobs := aset s3.jobs id job }, job)

/-- The public operations of the service (claim C1 quantifies over these). -/
inductive ServiceOp where
  | createJob (config : PlaygroundConfig)
  | startJob (id : String)
  | getJob (id : String)
  | getProgress (id : String)
  | failJob (id : String) (message : String)

/-- One public operation applied to the service state. Reads leave the state
unchanged; a `Job not found` throw leaves the state unchanged. -/
def step (oracle : Nat → Nat → Bool) (plugins : List PlaygroundPlugin)
    (s : ServiceState) : ServiceOp → ServiceState
  | .createJob cfg =>
    match createJob oracle plugins s cfg with
    | some r => r.1
    | none => s
  | .startJob id =>
    match startJob oracle plugins s id with
    | some r => r.1
    | none => s
  | .getJob _ => s
  | .getProgress _ => s
  | .failJob id msg =>
    match failJob oracle s id msg with
    | some r => r.1
    | none => s

end Playground

/-- `input.split('').reverse().join('')` (UTF-16 code-unit reversal is
modelled as character reversal; only lengths are observed by claims). -/
def reverseString (s : String) : String :=
  String.mk s.data.reverse

/-- ExamplePlugin.before: store the current time under `startTime`. -/
def examplePluginBefore (ctx : PlaygroundContext) (now : Nat) :
    Except String PlaygroundContext :=
  .ok { ctx with storage := aset ctx.storage "startTime" (Json.num now) }

/-- ExamplePlugin.execute: read `startTime` back (`|| Date.now()` falls back
on any falsy stored value), reverse string inputs (JSON.stringify others),
store the output on the context, and return the metric. -/
def examplePluginExecute (ctx : PlaygroundContext) (now : Nat) :
    Except String (Json × PlaygroundContext) :=
  let startTime : Int :=
    match alookup ctx.storage "startTime" with
    | some v => if v.truthy then v.toNum else (now : Int)
    | none => (now : Int)
  let output : String :=
    match ctx.input with
    | .str s => reverseString s
    | other => Json.stringify other
  let ctx2 := { ctx with output := some (Json.str output) }
  let endTime : Int := (now : Int)
  let inputLength : Nat :=
    match ctx.input with
    | .str s => s.length
    | other => (Json.stringify other).length
  .ok
    (Json.obj
      [("processedAt", Json.num now),
       ("inputLength", Json.num inputLength),
       ("outputLength", Json.num output.length),
       ("processingTimeMs", Json.num (endTime - startTime))],
     ctx2)

/-- ExamplePlugin.after: delete the stored `startTime`. -/
def examplePluginAfter (ctx : PlaygroundContext) (_ : Nat) :
    Except String PlaygroundContext :=
  .ok { ctx with storage := adelete ctx.storage "startTime" }

/-- ExamplePlugin.summarize. `averageProcessingTime` uses integer division
where JS divides real numbers; no claim observes that field. -/
def examplePluginSummarize (metrics : List Json) : Except String Json :=
  let totalProcessed : Int := metrics.length
  let totalProcessingTime : Int :=
    metrics.foldl (fun sum m => sum + (m.getFieldD "processingTimeMs").toNum) 0
  .ok
    (Json.obj
      [("totalProcessed", Json.num totalProcessed),
       ("averageProcessingTime",
        Json.num (if totalProcessed > 0 then totalProcessingTime / totalProcessed else 0)),
       ("totalInputLength",
        Json.num (metrics.foldl (fun sum m => sum + (m.getFieldD "inputLength").toNum) 0)),
       ("totalOutputLength",
        Json.num (metrics.foldl (fun sum m => sum + (m.getFieldD "outputLength").toNum) 0))])

/-- ExamplePlugin of src/services/playground/plugins/example-plugin.ts
(`initialize` only logs and is omitted). Its `name` is `example`. -/
def examplePlugin : PlaygroundPlugin :=
  { name := "example"
    enabled := true
    before := some examplePluginBefore
    execute := examplePluginExecute
    after := some examplePluginAfter
    summarize := some examplePluginSummarize }

/-- The plugin list built by POST /playground/jobs in
src/routes/playground.ts: `req.body.plugins.map(() => new ExamplePlugin())`
— one ExamplePlugin instance per entry, regardless of the entry's value, so
every instance carries the same name. -/
def routePlugins (reqPlugins : List String) : List PlaygroundPlugin :=
  reqPlugins.map fun _ => examplePlugin

/-- The config object built by POST /playground/jobs in
src/routes/playground.ts: input, retries, webhook and async are forwarded
from the request body; no `plugins` field is set (so no filter applies). -/
def routeConfig (input : Json) (retries : Option Nat) (webhook : Option WebhookConfig)
    (async : Option Bool) : PlaygroundConfig :=
  { input := input
    retries := retries
    plugins := none
    webhook := webhook
    async := async }

namespace Playground

/-- Last-writer fold of the `pluginError` events of a list over an initial
value. -/
def lastPluginErrorFrom (init : Option (String × String))
    (l : List PlaygroundEvent) : Option (String × String) :=
  l.foldl
    (fun acc e =>
      match e with
      | .pluginError _ n m => some (n, m)
      | _ => acc)
    init

/-- The name/message of the last `pluginError` event of a list, if any. -/
def lastPluginError (l : List PlaygroundEvent) : Option (String × String) :=
  lastPluginErrorFrom none l

end Playground

/-- A plugin whose execute hook always throws `Error("boom")` (as the mock
plugin of the playground test suite does via mockRejectedValue). -/
def boomPlugin : PlaygroundPlugin :=
  { name := "boom"
    enabled := true
    before := none
    execute := fun _ _ => .error "boom"
    after := none
    summarize := none }

/-- A plugin whose summarize hook always throws (test input for the summary
phase). Its execute returns the number 1. -/
def badSummaryPlugin : PlaygroundPlugin :=
  { name := "badsum"
    enabled := true
    before := none
    execute := fun ctx _ => .ok (Json.num 1, ctx)
    after := none
    summarize := some fun _ => .error "sum boom" }

/-- A concrete webhook config used as witness input. -/
def witWebhookConfig : WebhookConfig :=
  { url := "https://example.com/hook"
    headers := []
    retries := none
    onEvents := none }

/-- A concrete queued playground job (webhook configured, no plugin filter)
used as witness input. -/
def witPlaygroundJob : PlaygroundJob :=
  { id := "j1"
    config :=
      { input := Json.str "x"
        retries := none
        plugins := none
        webhook := some witWebhookConfig
        async := none }
    progress :=
      { status := JobStatus.queued
        startTime := 0
        endTime := none
        error := none
        currentPlugin := none
        completedPlugins := [] }
    result := none
    priority := 0
    retries := 0
    maxRetries := 3
    createdAt := 0
    updatedAt := 0 }

/-- A concrete crawl job used as witness input. -/
def witCrawlJob : Queue.CrawlJob :=
  { id := "c1"
    config := { url := "https://example.com", webhook := some witWebhookConfig } }

/-- A service state holding `witPlaygroundJob` under its id. -/
def witState : ServiceState :=
  { jobs := aset [] "j1" witPlaygroundJob
    events := []
    deliveries := []
    clock := 1
    nextId := 0 }

/-! ### Basic lemmas about the store and the emitter -/

theorem uuid_injective {n m : Nat} (h : uuid n = uuid m) : n = m := by
  have h1 : "job-".data ++ List.replicate n 'x' = "job-".data ++ List.replicate m 'x' := by
    have h0 := congrArg String.data h
    simpa [uuid, String.data_append] using h0
  have h2 := List.append_cancel_left h1
  have h3 := congrArg List.length h2
  simpa using h3


theorem alookup_aset_self {α : Type} (l : List (String × α)) (k : String) (v : α) :
    alookup (aset l k v) k = some v := by
  induction l with
  | nil => simp [aset, alookup]
  | cons kv rest ih =>
    by_cases h : kv.1 = k
    · simp [aset, alookup, h]
    · have hb : (kv.1 == k) = false := by simpa using h
      simp [aset, alookup, hb, ih]

theorem alookup_aset_ne {α : Type} (l : List (String × α)) {k k2 : String} (v : α)
    (h : k2 ≠ k) : alookup (aset l k v) k2 = alookup l k2 := by
  induction l with
  | nil =>
    have hb : (k == k2) = false := by simpa using (Ne.symm h)
    simp [aset, alookup, hb]
  | cons kv rest ih =>
    by_cases hh : kv.1 = k
    · have hb : (k == k2) = false := by simpa using (Ne.symm h)
      simp [aset, alookup, hh, hb]
    · have hb : (kv.1 == k) = false := by simpa using hh
      simp [aset, alookup, hb, ih]

namespace Playground

theorem emitEvent_events (o : Nat → Nat → Bool) (j : PlaygroundJob)
    (e : PlaygroundEvent) (s : ServiceState) :
    (emitEvent o j e s).events = s.events ++ [e] := rfl

theorem emitEvent_jobs (o : Nat → Nat → Bool) (j : PlaygroundJob)
    (e : PlaygroundEvent) (s : ServiceState) :
    (emitEvent o j e s).jobs = s.jobs := rfl

theorem emitEvent_clock (o : Nat → Nat → Bool) (j : PlaygroundJob)
    (e : PlaygroundEvent) (s : ServiceState) :
    (emitEvent o j e s).clock = s.clock := rfl

theorem emitEvent_nextId (o : Nat → Nat → Bool) (j : PlaygroundJob)
    (e : PlaygroundEvent) (s : ServiceState) :
    (emitEvent o j e s).nextId = s.nextId := rfl

theorem emitEvent_deliveries (o : Nat → Nat → Bool) (j : PlaygroundJob)
    (e : PlaygroundEvent) (s : ServiceState) :
    (emitEvent o j e s).deliveries =
      s.deliveries ++ deliveryOf o j e s.deliveries.length := rfl

/-- Events without a webhook handler produce no delivery. -/
theorem deliveryOf_none (o : Nat → Nat → Bool) (j : PlaygroundJob)
    (e : PlaygroundEvent) (idx : Nat) (h : outboundName e = none) :
    deliveryOf o j e idx = [] := by
  simp [deliveryOf, h]

/-- A filtered-out event produces no delivery. -/
theorem deliveryOf_filtered (o : Nat → Nat → Bool) (j : PlaygroundJob)
    (e : PlaygroundEvent) (idx : Nat) {t : String} (ht : outboundName e = some t)
    (h : shouldSendWebhook j t = false) : deliveryOf o j e idx = [] := by
  simp [deliveryOf, ht, h]

/-- An event passing the filter produces exactly one delivery, to the
configured url, under the outbound name. -/
theorem deliveryOf_sent (o : Nat → Nat → Bool) (j : PlaygroundJob)
    (e : PlaygroundEvent) (idx : Nat) {t : String} {w : WebhookConfig}
    (ht : outboundName e = some t) (h : shouldSendWebhook j t = true)
    (hw : j.config.webhook = some w) :
    deliveryOf o j e idx =
      [⟨t, w.url, (sendWebhook (o idx) w.retries).1, (sendWebhook (o idx) w.retries).2⟩] := by
  simp [deliveryOf, ht, h, hw]

/-- `shouldSendWebhook` is false when the job has no webhook config. -/
theorem shouldSendWebhook_no_webhook (j : PlaygroundJob) (t : String)
    (h : j.config.webhook = none) : shouldSendWebhook j t = false := by
  simp [shouldSendWebhook, h]

/-- `shouldSendWebhook` only reads the job's config. -/
theorem shouldSendWebhook_congr {j1 j2 : PlaygroundJob} (t : String)
    (h : j1.config = j2.config) : shouldSendWebhook j1 t = shouldSendWebhook j2 t := by
  simp [shouldSendWebhook, h]

end Playground

/-! ### Frame lemmas for the plugin loop -/

namespace Playground

/-- Fields of the job, and state components, never touched by the plugin
loop. -/
theorem runOnePlugin_frame (o : Nat → Nat → Bool) (id : String) (p : PlaygroundPlugin)
    (ps : PipelineState) :
    (runOnePlugin o id p ps).job.id = ps.job.id ∧
    (runOnePlugin o id p ps).job.config = ps.job.config ∧
    (runOnePlugin o id p ps).job.createdAt = ps.job.createdAt ∧
    (runOnePlugin o id p ps).job.updatedAt = ps.job.updatedAt ∧
    (runOnePlugin o id p ps).job.maxRetries = ps.job.maxRetries ∧
    (runOnePlugin o id p ps).job.priority = ps.job.priority ∧
    (runOnePlugin o id p ps).job.retries = ps.job.retries ∧
    (runOnePlugin o id p ps).job.progress.status = ps.job.progress.status ∧
    (runOnePlugin o id p ps).job.progress.startTime = ps.job.progress.startTime ∧
    (runOnePlugin o id p ps).job.progress.endTime = ps.job.progress.endTime ∧
    (runOnePlugin o id p ps).job.progress.error = ps.job.progress.error ∧
    (runOnePlugin o id p ps).state.jobs = ps.state.jobs ∧
    (runOnePlugin o id p ps).state.clock = ps.state.clock + (if pluginSkipped ps.job.config p then 0 else if (pluginHooksRun p ps.ctx ps.state.clock).isOk then 0 else 1) ∧
    (runOnePlugin o id p ps).state.nextId = ps.state.nextId := by
  unfold runOnePlugin pluginFail pushMetrics pluginHooksRun
  split
  · simp
  · cases hb : hookBefore p ps.ctx ps.state.clock with
    | error msg => simp [hb, emitEvent, Except.isOk, Except.toBool]
    | ok ctx1 =>
      cases he : p.execute ctx1 ps.state.clock with
      | error msg => simp [hb, he, emitEvent, Except.isOk, Except.toBool]
      | ok mc =>
        cases ha : hookAfter p mc.2 ps.state.clock with
        | error msg => simp [hb, he, ha, emitEvent, Except.isOk, Except.toBool]
        | ok ctx3 =>
          cases hr : ps.job.result <;>
            simp [hb, he, ha, hr, emitEvent, Except.isOk, Except.toBool]

end Playground

namespace Playground

theorem runPlugins_cons (o : Nat → Nat → Bool) (id : String) (p : PlaygroundPlugin)
    (l : List PlaygroundPlugin) (ps : PipelineState) :
    runPlugins o id (p :: l) ps = runPlugins o id l (runOnePlugin o id p ps) := rfl

theorem runPlugins_append (o : Nat → Nat → Bool) (id : String)
    (l1 l2 : List PlaygroundPlugin) (ps : PipelineState) :
    runPlugins o id (l1 ++ l2) ps = runPlugins o id l2 (runPlugins o id l1 ps) := by
  induction l1 generalizing ps with
  | nil => rfl
  | cons p rest ih => simp [runPlugins_cons, ih]

/-- The whole plugin loop also leaves those components unchanged. -/
theorem runPlugins_frame (o : Nat → Nat → Bool) (id : String)
    (l : List PlaygroundPlugin) (ps : PipelineState) :
    (runPlugins o id l ps).job.id = ps.job.id ∧
    (runPlugins o id l ps).job.config = ps.job.config ∧
    (runPlugins o id l ps).job.createdAt = ps.job.createdAt ∧
    (runPlugins o id l ps).job.updatedAt = ps.job.updatedAt ∧
    (runPlugins o id l ps).job.maxRetries = ps.job.maxRetries ∧
    (runPlugins o id l ps).job.priority = ps.job.priority ∧
    (runPlugins o id l ps).job.retries = ps.job.retries ∧
    (runPlugins o id l ps).job.progress.status = ps.job.progress.status ∧
    (runPlugins o id l ps).job.progress.startTime = ps.job.progress.startTime ∧
    (runPlugins o id l ps).job.progress.endTime = ps.job.progress.endTime ∧
    (runPlugins o id l ps).job.progress.error = ps.job.progress.error ∧
    (runPlugins o id l ps).state.jobs = ps.state.jobs ∧
    (runPlugins o id l ps).state.nextId = ps.state.nextId := by
  induction l generalizing ps with
  | nil => simp [runPlugins]
  | cons p rest ih =>
    have h1 := runOnePlugin_frame o id p ps
    have h2 := ih (runOnePlugin o id p ps)
    rw [runPlugins_cons]
    exact ⟨h2.1.trans h1.1,
           h2.2.1.trans h1.2.1,
           h2.2.2.1.trans h1.2.2.1,
           h2.2.2.2.1.trans h1.2.2.2.1,
           h2.2.2.2.2.1.trans h1.2.2.2.2.1,
           h2.2.2.2.2.2.1.trans h1.2.2.2.2.2.1,
           h2.2.2.2.2.2.2.1.trans h1.2.2.2.2.2.2.1,
           h2.2.2.2.2.2.2.2.1.trans h1.2.2.2.2.2.2.2.1,
           h2.2.2.2.2.2.2.2.2.1.trans h1.2.2.2.2.2.2.2.2.1,
           h2.2.2.2.2.2.2.2.2.2.1.trans h1.2.2.2.2.2.2.2.2.2.1,
           h2.2.2.2.2.2.2.2.2.2.2.1.trans h1.2.2.2.2.2.2.2.2.2.2.1,
           h2.2.2.2.2.2.2.2.2.2.2.2.1.trans h1.2.2.2.2.2.2.2.2.2.2.2.1,
           h2.2.2.2.2.2.2.2.2.2.2.2.2.trans h1.2.2.2.2.2.2.2.2.2.2.2.2.2⟩

end Playground

namespace Playground

theorem lastPluginErrorFrom_eq (init : Option (String × String))
    (l : List PlaygroundEvent) :
    lastPluginErrorFrom init l =
      match lastPluginError l with
      | some r => some r
      | none => init := by
  induction l generalizing init with
  | nil => rfl
  | cons e rest ih =>
    have l1 : forall i : Option (String × String),
        lastPluginErrorFrom i (e :: rest) =
          lastPluginErrorFrom
            (match e with
             | PlaygroundEvent.pluginError _ n m => some (n, m)
             | _ => i) rest := fun i => rfl
    rw [lastPluginError, l1, l1, ih, ih]
    cases h : lastPluginError rest <;> cases e <;> simp [h]

theorem lastPluginError_append (a b : List PlaygroundEvent) :
    lastPluginError (a ++ b) =
      match lastPluginError b with
      | some r => some r
      | none => lastPluginError a := by
  have h1 : lastPluginError (a ++ b) = lastPluginErrorFrom (lastPluginError a) b := by
    simp [lastPluginError, lastPluginErrorFrom, List.foldl_append]
  rw [h1, lastPluginErrorFrom_eq]

end Playground

namespace Playground

/-- Exhaustive description of one iteration of the plugin loop, as seen by a
job whose result object exists: the plugin is skipped (no change), runs to
success (metric pushed, name appended to `completedPlugins`, `pluginStart`
then `pluginComplete` emitted), or throws (`pluginStart` then `pluginError`
emitted, `result.error` overwritten with this plugin's record). -/
theorem runOnePlugin_sync (o : Nat → Nat → Bool) (id : String) (p : PlaygroundPlugin)
    (ps : PipelineState) {r : PlaygroundResult} (hr : ps.job.result = some r) :
    ∃ r2 t, (runOnePlugin o id p ps).job.result = some r2 ∧
      (runOnePlugin o id p ps).state.events = ps.state.events ++ t ∧
      r2.summary = r.summary ∧ r2.config = r.config ∧ r2.progress = r.progress ∧
      ((runOnePlugin o id p ps = ps ∧ r2 = r ∧ t = [] ∧
          pluginSkipped ps.job.config p = true) ∨
        (∃ m, t = [PlaygroundEvent.pluginStart id p.name,
                   PlaygroundEvent.pluginComplete id p.name m] ∧
          r2.error = r.error ∧ r2.metrics = r.metrics ++ [(p.name, m)] ∧
          (runOnePlugin o id p ps).job.progress.completedPlugins =
            ps.job.progress.completedPlugins ++ [p.name] ∧
          pluginSkipped ps.job.config p = false) ∨
        (∃ msg ts, t = [PlaygroundEvent.pluginStart id p.name,
                        PlaygroundEvent.pluginError id p.name msg] ∧
          r2.error = some ⟨msg, some p.name, ts⟩ ∧ r2.metrics = r.metrics ∧
          (runOnePlugin o id p ps).job.progress.completedPlugins =
            ps.job.progress.completedPlugins ∧
          pluginSkipped ps.job.config p = false ∧
          pluginHooksRun p ps.ctx ps.state.clock = .error msg)) := by
  by_cases hsk : pluginSkipped ps.job.config p = true
  · have heq : runOnePlugin o id p ps = ps := by
      unfold runOnePlugin
      simp [hsk]
    refine ⟨r, [], ?_, ?_, rfl, rfl, rfl, Or.inl ⟨heq, rfl, rfl, hsk⟩⟩
    · rw [heq]
      exact hr
    · rw [heq]
      simp
  · have hskf : pluginSkipped ps.job.config p = false := by simpa using hsk
    unfold runOnePlugin
    cases hb : hookBefore p ps.ctx ps.state.clock with
    | error msg =>
      refine ⟨{ r with error := some ⟨msg, some p.name, ps.state.clock⟩ },
        [PlaygroundEvent.pluginStart id p.name,
         PlaygroundEvent.pluginError id p.name msg],
        ?_, ?_, rfl, rfl, rfl,
        Or.inr (Or.inr ⟨msg, ps.state.clock, rfl, rfl, rfl, ?_, hskf, ?_⟩)⟩
      · simp [hskf, emitEvent, hb, pluginFail, hr]
      · simp [hskf, emitEvent, hb, pluginFail, hr]
      · simp [hskf, emitEvent, hb, pluginFail, hr]
      · simp [pluginHooksRun, hb]
    | ok ctx1 =>
      cases he : p.execute ctx1 ps.state.clock with
      | error msg =>
        refine ⟨{ r with error := some ⟨msg, some p.name, ps.state.clock⟩ },
          [PlaygroundEvent.pluginStart id p.name,
           PlaygroundEvent.pluginError id p.name msg],
          ?_, ?_, rfl, rfl, rfl,
          Or.inr (Or.inr ⟨msg, ps.state.clock, rfl, rfl, rfl, ?_, hskf, ?_⟩)⟩
        · simp [hskf, emitEvent, hb, he, pluginFail, hr]
        · simp [hskf, emitEvent, hb, he, pluginFail, hr]
        · simp [hskf, emitEvent, hb, he, pluginFail, hr]
        · simp [pluginHooksRun, hb, he]
      | ok mc =>
        cases ha : hookAfter p mc.2 ps.state.clock with
        | error msg =>
          refine ⟨{ r with error := some ⟨msg, some p.name, ps.state.clock⟩ },
            [PlaygroundEvent.pluginStart id p.name,
             PlaygroundEvent.pluginError id p.name msg],
            ?_, ?_, rfl, rfl, rfl,
            Or.inr (Or.inr ⟨msg, ps.state.clock, rfl, rfl, rfl, ?_, hskf, ?_⟩)⟩
          · simp [hskf, emitEvent, hb, he, ha, pluginFail, hr]
          · simp [hskf, emitEvent, hb, he, ha, pluginFail, hr]
          · simp [hskf, emitEvent, hb, he, ha, pluginFail, hr]
          · simp [pluginHooksRun, hb, he, ha]
        | ok ctx3 =>
          refine ⟨{ r with metrics := r.metrics ++ [(p.name, mc.1)] },
            [PlaygroundEvent.pluginStart id p.name,
             PlaygroundEvent.pluginComplete id p.name mc.1],
            ?_, ?_, rfl, rfl, rfl,
            Or.inr (Or.inl ⟨mc.1, rfl, rfl, rfl, ?_, hskf⟩)⟩
          · simp [hskf, emitEvent, hb, he, ha, pushMetrics, hr]
          · simp [hskf, emitEvent, hb, he, ha, pushMetrics, hr]
          · simp [hskf, emitEvent, hb, he, ha, pushMetrics, hr]

end Playground

namespace Playground

/-- Induction of `runOnePlugin_sync` over the whole loop: the result object
survives with its summary/config/progress untouched; events only grow;
`completedPlugins` grows by a subsequence of the plugin names in list order;
every appended metric entry is keyed by the name of a non-skipped plugin of
the list; and `result.error` is that of the last `pluginError` event emitted
by the loop (last writer wins), or unchanged if none was. -/
theorem runPlugins_sync (o : Nat → Nat → Bool) (id : String) (l : List PlaygroundPlugin) :
    ∀ (ps : PipelineState) (r : PlaygroundResult), ps.job.result = some r →
    ∃ r2 t, (runPlugins o id l ps).job.result = some r2 ∧
      (runPlugins o id l ps).state.events = ps.state.events ++ t ∧
      r2.summary = r.summary ∧ r2.config = r.config ∧ r2.progress = r.progress ∧
      (∃ n, (runPlugins o id l ps).job.progress.completedPlugins =
          ps.job.progress.completedPlugins ++ n ∧
        List.Sublist n (l.map PlaygroundPlugin.name)) ∧
      (∃ tailm, r2.metrics = r.metrics ++ tailm ∧
        ∀ kv ∈ tailm, ∃ p2, p2 ∈ l ∧ kv.1 = p2.name ∧
          pluginSkipped ps.job.config p2 = false) ∧
      (match lastPluginError t with
       | none => r2.error = r.error
       | some nm => ∃ ts, r2.error = some ⟨nm.2, some nm.1, ts⟩) := by
  induction l with
  | nil =>
    intro ps r hr
    exact ⟨r, [], hr, by simp [runPlugins], rfl, rfl, rfl,
      ⟨[], by simp [runPlugins], List.nil_sublist _⟩,
      ⟨[], by simp, by simp⟩, by simp [lastPluginError, lastPluginErrorFrom]⟩
  | cons p rest ih =>
    intro ps r hr
    obtain ⟨r1, t1, hr1, hev1, hsum1, hcfg1, hprog1, hdisj⟩ := runOnePlugin_sync o id p ps hr
    obtain ⟨r2, t2, hr2, hev2, hsum2, hcfg2, hprog2, ⟨n2, hcomp2, hsub2⟩,
      ⟨tm2, hm2, hmem2⟩, herr2⟩ := ih (runOnePlugin o id p ps) r1 hr1
    have hframe := runOnePlugin_frame o id p ps
    have hcfgeq : (runOnePlugin o id p ps).job.config = ps.job.config := hframe.2.1
    have hideq : (runOnePlugin o id p ps).job.id = ps.job.id := hframe.1
    refine ⟨r2, t1 ++ t2, ?_, ?_, ?_, ?_, ?_, ?_, ?_, ?_⟩
    · rw [runPlugins_cons]
      exact hr2
    · rw [runPlugins_cons, hev2, hev1, List.append_assoc]
    · rw [hsum2, hsum1]
    · rw [hcfg2, hcfg1]
    · rw [hprog2, hprog1]
    · -- completedPlugins
      rcases hdisj with ⟨heq, -, -, -⟩ | ⟨m, -, -, -, hcomp1, -⟩ | ⟨msg, ts, -, -, -, hcomp1, -, -⟩
      · refine ⟨n2, ?_, List.Sublist.cons p.name hsub2⟩
        rw [runPlugins_cons, hcomp2, heq]
      · refine ⟨p.name :: n2, ?_, List.Sublist.cons₂ p.name hsub2⟩
        rw [runPlugins_cons, hcomp2, hcomp1]
        simp
      · refine ⟨n2, ?_, List.Sublist.cons p.name hsub2⟩
        rw [runPlugins_cons, hcomp2, hcomp1]
    · -- metrics entries
      rcases hdisj with ⟨heq, hre, -, -⟩ | ⟨m, -, -, hm1, -, hskf⟩ | ⟨msg, ts, -, -, hm1, -, -, -⟩
      · refine ⟨tm2, ?_, ?_⟩
        · rw [hm2, hre]
        · intro kv hkv
          obtain ⟨p2, hp2, hn, hs⟩ := hmem2 kv hkv
          exact ⟨p2, List.mem_cons_of_mem p hp2, hn, by rwa [hcfgeq] at hs⟩
      · refine ⟨(p.name, m) :: tm2, ?_, ?_⟩
        · rw [hm2, hm1]
          simp
        · intro kv hkv
          rcases List.mem_cons.mp hkv with hkv | hkv
          · exact ⟨p, List.mem_cons_self p rest, by rw [hkv], hskf⟩
          · obtain ⟨p2, hp2, hn, hs⟩ := hmem2 kv hkv
            exact ⟨p2, List.mem_cons_of_mem p hp2, hn, by rwa [hcfgeq] at hs⟩
      · refine ⟨tm2, ?_, ?_⟩
        · rw [hm2, hm1]
        · intro kv hkv
          obtain ⟨p2, hp2, hn, hs⟩ := hmem2 kv hkv
          exact ⟨p2, List.mem_cons_of_mem p hp2, hn, by rwa [hcfgeq] at hs⟩
    · -- last writer wins for result.error
      rw [lastPluginError_append]
      rcases hdisj with ⟨-, hre, ht1, -⟩ | ⟨m, ht1, hre1, -, -, -⟩ |
        ⟨msg, ts, ht1, hre1, -, -, -, -⟩
      · cases h2 : lastPluginError t2 with
        | some nm =>
          rw [h2] at herr2
          simp [ht1, lastPluginError, lastPluginErrorFrom, h2, herr2]
          exact herr2
        | none =>
          rw [h2] at herr2
          rw [ht1]
          simp [lastPluginError, lastPluginErrorFrom, h2, herr2, hre]
      · cases h2 : lastPluginError t2 with
        | some nm =>
          rw [h2] at herr2
          simpa [ht1, h2] using herr2
        | none =>
          rw [h2] at herr2
          rw [ht1]
          simp [lastPluginError, lastPluginErrorFrom]
          rw [herr2, hre1]
      · cases h2 : lastPluginError t2 with
        | some nm =>
          rw [h2] at herr2
          simpa [ht1, h2] using herr2
        | none =>
          rw [h2] at herr2
          rw [ht1]
          simp only [lastPluginError, lastPluginErrorFrom, List.foldl_cons, List.foldl_nil]
          rw [herr2, hre1]
          exact ⟨ts, rfl⟩

end Playground

/-! ### Webhook retry loop lemmas -/

theorem Queue.qSendWebhookLoop_attempts_le (outcome : Nat → Bool) :
    ∀ (fuel a : Nat), (Queue.sendWebhookLoop outcome fuel a).1 ≤ fuel := by
  intro fuel
  induction fuel with
  | zero => intro a; simp [Queue.sendWebhookLoop]
  | succ f ih =>
    intro a
    simp only [Queue.sendWebhookLoop]
    split
    · omega
    · split
      · omega
      · have := ih (a + 1)
        omega

theorem Queue.qSendWebhookLoop_attempts_pos (outcome : Nat → Bool)
    (fuel a : Nat) (h : 1 ≤ fuel) : 1 ≤ (Queue.sendWebhookLoop outcome fuel a).1 := by
  cases fuel with
  | zero => omega
  | succ f =>
    simp only [Queue.sendWebhookLoop]
    split
    · omega
    · split
      · omega
      · omega

theorem Playground.pSendWebhookLoop_attempts_le (outcome : Nat → Bool) :
    ∀ (fuel a : Nat), (Playground.sendWebhookLoop outcome fuel a).1 ≤ fuel := by
  intro fuel
  induction fuel with
  | zero => intro a; simp [Playground.sendWebhookLoop]
  | succ f ih =>
    intro a
    simp only [Playground.sendWebhookLoop]
    split
    · omega
    · split
      · omega
      · have := ih (a + 1)
        omega

theorem Playground.pSendWebhookLoop_attempts_pos (outcome : Nat → Bool)
    (fuel a : Nat) (h : 1 ≤ fuel) : 1 ≤ (Playground.sendWebhookLoop outcome fuel a).1 := by
  cases fuel with
  | zero => omega
  | succ f =>
    simp only [Playground.sendWebhookLoop]
    split
    · omega
    · split
      · omega
      · omega

/-- The queue-service loop inserts, before the (j+1)-st attempt (0-indexed
retry j counted from the starting attempt index `a`), a delay of `2 ^ (a + j)`
seconds. -/
theorem Queue.qSendWebhookLoop_delays (outcome : Nat → Bool) :
    ∀ (fuel a : Nat),
      (Queue.sendWebhookLoop outcome fuel a).2 =
        (List.range ((Queue.sendWebhookLoop outcome fuel a).1 - 1)).map
          (fun j => 2 ^ (a + j)) := by
  intro fuel
  induction fuel with
  | zero => intro a; simp [Queue.sendWebhookLoop]
  | succ f ih =>
    intro a
    simp only [Queue.sendWebhookLoop]
    split
    · simp
    · split
      · simp
      · rename_i hout hf
        have hfne : f ≠ 0 := by simpa using hf
        have hpos : 1 ≤ (Queue.sendWebhookLoop outcome f (a + 1)).1 := by
          apply Queue.qSendWebhookLoop_attempts_pos
          omega
        obtain ⟨k, hk⟩ : ∃ k, (Queue.sendWebhookLoop outcome f (a + 1)).1 = k + 1 :=
          ⟨(Queue.sendWebhookLoop outcome f (a + 1)).1 - 1, by omega⟩
        have ihh := ih (a + 1)
        rw [hk] at ihh
        simp only [Nat.add_sub_cancel] at ihh
        simp only [hk, Nat.add_sub_cancel, List.range_succ_eq_map, List.map_cons,
          List.map_map, ihh, List.cons.injEq]
        constructor
        · simp
        · apply List.map_congr_left
          intro j _
          simp only [Function.comp_apply]
          congr 1
          omega

/-- The playground loop inserts, before the (j+1)-st attempt, a delay of
`2 ^ (a + j + 1)` seconds: one doubling step ahead of the queue-service
loop. -/
theorem Playground.pSendWebhookLoop_delays (outcome : Nat → Bool) :
    ∀ (fuel a : Nat),
      (Playground.sendWebhookLoop outcome fuel a).2 =
        (List.range ((Playground.sendWebhookLoop outcome fuel a).1 - 1)).map
          (fun j => 2 ^ (a + j + 1)) := by
  intro fuel
  induction fuel with
  | zero => intro a; simp [Playground.sendWebhookLoop]
  | succ f ih =>
    intro a
    simp only [Playground.sendWebhookLoop]
    split
    · simp
    · split
      · simp
      · rename_i hout hf
        have hfne : f ≠ 0 := by simpa using hf
        have hpos : 1 ≤ (Playground.sendWebhookLoop outcome f (a + 1)).1 := by
          apply Playground.pSendWebhookLoop_attempts_pos
          omega
        obtain ⟨k, hk⟩ : ∃ k, (Playground.sendWebhookLoop outcome f (a + 1)).1 = k + 1 :=
          ⟨(Playground.sendWebhookLoop outcome f (a + 1)).1 - 1, by omega⟩
        have ihh := ih (a + 1)
        rw [hk] at ihh
        simp only [Nat.add_sub_cancel] at ihh
        simp only [hk, Nat.add_sub_cancel, List.range_succ_eq_map, List.map_cons,
          List.map_map, ihh, List.cons.injEq]
        constructor
        · simp
        · apply List.map_congr_left
          intro j _
          simp only [Function.comp_apply]
          congr 1
          omega

namespace Playground

/-- Two pipeline states agreeing on everything except the delivery log are
equal after replacing the delivery log. -/
theorem pipeline_eta (x y : PipelineState) (hj : x.job = y.job) (hc : x.ctx = y.ctx)
    (he : x.state.events = y.state.events) (hcl : x.state.clock = y.state.clock)
    (hjobs : x.state.jobs = y.state.jobs) (hn : x.state.nextId = y.state.nextId) :
    x = ⟨y.job, y.ctx, { y.state with deliveries := x.state.deliveries }⟩ := by
  obtain ⟨xj, xc, xs⟩ := x
  obtain ⟨yj, yc, ys⟩ := y
  obtain ⟨xsj, xse, xsd, xsc, xsn⟩ := xs
  obtain ⟨ysj, yse, ysd, ysc, ysn⟩ := ys
  dsimp at hj hc he hcl hjobs hn ⊢
  subst hj hc he hcl hjobs hn
  rfl

/-- Webhook outcomes (and the delivery log) influence nothing but the
delivery log: one loop iteration under a different oracle and delivery log
produces the same job, context, events, clock and job registry. -/
theorem runOnePlugin_oracle (o1 o2 : Nat → Nat → Bool) (id : String)
    (p : PlaygroundPlugin) (ps : PipelineState) (d : List WebhookDelivery) :
    ∃ d2, runOnePlugin o2 id p ⟨ps.job, ps.ctx, { ps.state with deliveries := d }⟩ =
      ⟨(runOnePlugin o1 id p ps).job, (runOnePlugin o1 id p ps).ctx,
        { (runOnePlugin o1 id p ps).state with deliveries := d2 }⟩ := by
  by_cases hsk : pluginSkipped ps.job.config p = true
  · have h1 : runOnePlugin o1 id p ps = ps := by
      unfold runOnePlugin
      simp [hsk]
    have h2 : runOnePlugin o2 id p ⟨ps.job, ps.ctx, { ps.state with deliveries := d }⟩ =
        ⟨ps.job, ps.ctx, { ps.state with deliveries := d }⟩ := by
      unfold runOnePlugin
      simp [hsk]
    exact ⟨d, by rw [h1, h2]⟩
  · have hskf : pluginSkipped ps.job.config p = false := by simpa using hsk
    cases hb : hookBefore p ps.ctx ps.state.clock with
    | error msg =>
      refine ⟨_, pipeline_eta _ _ ?_ ?_ ?_ ?_ ?_ ?_⟩ <;>
        simp [runOnePlugin, hskf, hb, pluginFail, emitEvent]
    | ok ctx1 =>
      cases he : p.execute ctx1 ps.state.clock with
      | error msg =>
        refine ⟨_, pipeline_eta _ _ ?_ ?_ ?_ ?_ ?_ ?_⟩ <;>
          simp [runOnePlugin, hskf, hb, he, pluginFail, emitEvent]
      | ok mc =>
        cases ha : hookAfter p mc.2 ps.state.clock with
        | error msg =>
          refine ⟨_, pipeline_eta _ _ ?_ ?_ ?_ ?_ ?_ ?_⟩ <;>
            simp [runOnePlugin, hskf, hb, he, ha, pluginFail, emitEvent]
        | ok ctx3 =>
          refine ⟨_, pipeline_eta _ _ ?_ ?_ ?_ ?_ ?_ ?_⟩ <;>
            simp [runOnePlugin, hskf, hb, he, ha, pushMetrics, emitEvent]

/-- `runOnePlugin_oracle` over the whole loop. -/
theorem runPlugins_oracle (o1 o2 : Nat → Nat → Bool) (id : String)
    (l : List PlaygroundPlugin) :
    ∀ (ps : PipelineState) (d : List WebhookDelivery),
    ∃ d2, runPlugins o2 id l ⟨ps.job, ps.ctx, { ps.state with deliveries := d }⟩ =
      ⟨(runPlugins o1 id l ps).job, (runPlugins o1 id l ps).ctx,
        { (runPlugins o1 id l ps).state with deliveries := d2 }⟩ := by
  induction l with
  | nil =>
    intro ps d
    exact ⟨d, rfl⟩
  | cons p rest ih =>
    intro ps d
    obtain ⟨d1, h1⟩ := runOnePlugin_oracle o1 o2 id p ps d
    obtain ⟨d2, h2⟩ := ih (runOnePlugin o1 id p ps) d1
    refine ⟨d2, ?_⟩
    rw [runPlugins_cons, runPlugins_cons, h1, h2]

end Playground

namespace Playground

/-- Two service states agreeing on everything except the delivery log are
equal after replacing the delivery log. -/
theorem service_eta (x y : ServiceState) (hjobs : x.jobs = y.jobs)
    (he : x.events = y.events) (hcl : x.clock = y.clock) (hn : x.nextId = y.nextId) :
    x = { y with deliveries := x.deliveries } := by
  obtain ⟨xj, xe, xd, xc, xn⟩ := x
  obtain ⟨yj, ye, yd, yc, yn⟩ := y
  dsimp at hjobs he hcl hn ⊢
  subst hjobs he hcl hn
  rfl

/-- startJob under a different webhook oracle, from a state agreeing on
everything but the delivery log: same found/not-found outcome, same returned
job, same resulting job registry, events, clock and id counter. -/
theorem startJob_oracle (o1 o2 : Nat → Nat → Bool) (plugins : List PlaygroundPlugin)
    (s s2 : ServiceState) (id : String)
    (hjobs : s2.jobs = s.jobs) (hev : s2.events = s.events)
    (hcl : s2.clock = s.clock) (hnx : s2.nextId = s.nextId) :
    (startJob o2 plugins s2 id).map (fun r => r.1.jobs) =
      (startJob o1 plugins s id).map (fun r => r.1.jobs) ∧
    (startJob o2 plugins s2 id).map (fun r => r.1.events) =
      (startJob o1 plugins s id).map (fun r => r.1.events) ∧
    (startJob o2 plugins s2 id).map (fun r => r.1.clock) =
      (startJob o1 plugins s id).map (fun r => r.1.clock) ∧
    (startJob o2 plugins s2 id).map (fun r => r.1.nextId) =
      (startJob o1 plugins s id).map (fun r => r.1.nextId) ∧
    (startJob o2 plugins s2 id).map (fun r => r.2) =
      (startJob o1 plugins s id).map (fun r => r.2) := by
  have hs2 : s2 = { s with deliveries := s2.deliveries } :=
    service_eta s2 s hjobs hev hcl hnx
  cases h : alookup s.jobs id with
  | none =>
    rw [hs2]
    simp [startJob, h]
  | some job =>
    obtain ⟨dI, hI⟩ : ∃ dI, startJobInit o2 { s with deliveries := s2.deliveries } id job =
        ⟨(startJobInit o1 s id job).job, (startJobInit o1 s id job).ctx,
          { (startJobInit o1 s id job).state with deliveries := dI }⟩ := by
      refine ⟨_, pipeline_eta _ _ ?_ ?_ ?_ ?_ ?_ ?_⟩ <;> simp [startJobInit, emitEvent]
    obtain ⟨dR, hR⟩ := runPlugins_oracle o1 o2 id plugins (startJobInit o1 s id job) dI
    obtain ⟨dF, hF⟩ : ∃ dF, startJobFinish o2 plugins id
        ⟨(runPlugins o1 id plugins (startJobInit o1 s id job)).job,
         (runPlugins o1 id plugins (startJobInit o1 s id job)).ctx,
         { (runPlugins o1 id plugins (startJobInit o1 s id job)).state with deliveries := dR }⟩ =
        ({ (startJobFinish o1 plugins id (runPlugins o1 id plugins (startJobInit o1 s id job))).1
            with deliveries := dF },
         (startJobFinish o1 plugins id (runPlugins o1 id plugins (startJobInit o1 s id job))).2) := by
      refine ⟨_, Prod.ext (service_eta _ _ ?_ ?_ ?_ ?_) ?_⟩ <;>
        simp [startJobFinish, emitEvent]
    have e1 : startJob o1 plugins s id =
        some (startJobFinish o1 plugins id (runPlugins o1 id plugins (startJobInit o1 s id job))) := by
      simp [startJob, h]
    have e2 : startJob o2 plugins s2 id =
        some ({ (startJobFinish o1 plugins id
                  (runPlugins o1 id plugins (startJobInit o1 s id job))).1
                with deliveries := dF },
              (startJobFinish o1 plugins id
                (runPlugins o1 id plugins (startJobInit o1 s id job))).2) := by
      rw [hs2]
      simp only [startJob]
      rw [show alookup ({ s with deliveries := s2.deliveries } : ServiceState).jobs id =
        some job from h]
      simp only [hI, hR, hF]
    rw [e1, e2]
    simp

/-- failJob under a different webhook oracle, from a state agreeing on
everything but the delivery log. -/
theorem failJob_oracle (o1 o2 : Nat → Nat → Bool) (s s2 : ServiceState)
    (id message : String)
    (hjobs : s2.jobs = s.jobs) (hev : s2.events = s.events)
    (hcl : s2.clock = s.clock) (hnx : s2.nextId = s.nextId) :
    (failJob o2 s2 id message).map (fun r => r.1.jobs) =
      (failJob o1 s id message).map (fun r => r.1.jobs) ∧
    (failJob o2 s2 id message).map (fun r => r.1.events) =
      (failJob o1 s id message).map (fun r => r.1.events) ∧
    (failJob o2 s2 id message).map (fun r => r.1.clock) =
      (failJob o1 s id message).map (fun r => r.1.clock) ∧
    (failJob o2 s2 id message).map (fun r => r.1.nextId) =
      (failJob o1 s id message).map (fun r => r.1.nextId) ∧
    (failJob o2 s2 id message).map (fun r => r.2) =
      (failJob o1 s id message).map (fun r => r.2) := by
  have h2 : alookup s2.jobs id = alookup s.jobs id := by rw [hjobs]
  cases h : alookup s.jobs id with
  | none =>
    rw [h] at h2
    simp [failJob, h, h2]
  | some job =>
    rw [h] at h2
    simp [failJob, h, h2, emitEvent, hjobs, hev, hcl, hnx]

/-- createJob under a different webhook oracle, from a state agreeing on
everything but the delivery log. -/
theorem createJob_oracle (o1 o2 : Nat → Nat → Bool) (plugins : List PlaygroundPlugin)
    (s s2 : ServiceState) (cfg : PlaygroundConfig)
    (hjobs : s2.jobs = s.jobs) (hev : s2.events = s.events)
    (hcl : s2.clock = s.clock) (hnx : s2.nextId = s.nextId) :
    (createJob o2 plugins s2 cfg).map (fun r => r.1.jobs) =
      (createJob o1 plugins s cfg).map (fun r => r.1.jobs) ∧
    (createJob o2 plugins s2 cfg).map (fun r => r.1.events) =
      (createJob o1 plugins s cfg).map (fun r => r.1.events) ∧
    (createJob o2 plugins s2 cfg).map (fun r => r.1.clock) =
      (createJob o1 plugins s cfg).map (fun r => r.1.clock) ∧
    (createJob o2 plugins s2 cfg).map (fun r => r.1.nextId) =
      (createJob o1 plugins s cfg).map (fun r => r.1.nextId) ∧
    (createJob o2 plugins s2 cfg).map (fun r => r.2) =
      (createJob o1 plugins s cfg).map (fun r => r.2) := by
  simp only [createJob]
  rw [hnx, hcl, hjobs]
  apply startJob_oracle <;> simp [hjobs, hev, hcl, hnx]

end Playground

namespace Playground

/-- The outcome of webhook deliveries influences nothing but the delivery
log: any public operation produces the same job registry, event log, clock
and id counter under any two delivery oracles. -/
theorem step_oracle (o1 o2 : Nat → Nat → Bool) (plugins : List PlaygroundPlugin)
    (s : ServiceState) (op : ServiceOp) :
    (step o2 plugins s op).jobs = (step o1 plugins s op).jobs ∧
    (step o2 plugins s op).events = (step o1 plugins s op).events ∧
    (step o2 plugins s op).clock = (step o1 plugins s op).clock ∧
    (step o2 plugins s op).nextId = (step o1 plugins s op).nextId := by
  cases op with
  | getJob id => exact ⟨rfl, rfl, rfl, rfl⟩
  | getProgress id => exact ⟨rfl, rfl, rfl, rfl⟩
  | createJob cfg =>
    obtain ⟨hj, he, hc, hn, -⟩ := createJob_oracle o1 o2 plugins s s cfg rfl rfl rfl rfl
    cases h1 : createJob o1 plugins s cfg with
    | none =>
      cases h2 : createJob o2 plugins s cfg with
      | none => simp [step, h1, h2]
      | some r2 =>
        rw [h1, h2] at hj
        simp at hj
    | some r1 =>
      cases h2 : createJob o2 plugins s cfg with
      | none =>
        rw [h1, h2] at hj
        simp at hj
      | some r2 =>
        rw [h1, h2] at hj he hc hn
        simp at hj he hc hn
        simp [step, h1, h2, hj, he, hc, hn]
  | startJob id =>
    obtain ⟨hj, he, hc, hn, -⟩ := startJob_oracle o1 o2 plugins s s id rfl rfl rfl rfl
    cases h1 : startJob o1 plugins s id with
    | none =>
      cases h2 : startJob o2 plugins s id with
      | none => simp [step, h1, h2]
      | some r2 =>
        rw [h1, h2] at hj
        simp at hj
    | some r1 =>
      cases h2 : startJob o2 plugins s id with
      | none =>
        rw [h1, h2] at hj
        simp at hj
      | some r2 =>
        rw [h1, h2] at hj he hc hn
        simp at hj he hc hn
        simp [step, h1, h2, hj, he, hc, hn]
  | failJob id msg =>
    obtain ⟨hj, he, hc, hn, -⟩ := failJob_oracle o1 o2 s s id msg rfl rfl rfl rfl
    cases h1 : failJob o1 s id msg with
    | none =>
      cases h2 : failJob o2 s id msg with
      | none => simp [step, h1, h2]
      | some r2 =>
        rw [h1, h2] at hj
        simp at hj
    | some r1 =>
      cases h2 : failJob o2 s id msg with
      | none =>
        rw [h1, h2] at hj
        simp at hj
      | some r2 =>
        rw [h1, h2] at hj he hc hn
        simp at hj he hc hn
        simp [step, h1, h2, hj, he, hc, hn]

end Playground

namespace Playground

/-- Every enabled, non-filtered plugin of the list gets its `pluginStart`
event emitted by the loop (it "executes", whether or not its hooks throw). -/
theorem runPlugins_pluginStart (o : Nat → Nat → Bool) (id : String)
    (l : List PlaygroundPlugin) :
    ∀ (ps : PipelineState) (r : PlaygroundResult) (q : PlaygroundPlugin),
    ps.job.result = some r → q ∈ l → pluginSkipped ps.job.config q = false →
    PlaygroundEvent.pluginStart id q.name ∈ (runPlugins o id l ps).state.events := by
  induction l with
  | nil =>
    intro ps r q hr hq hsk
    simp at hq
  | cons p rest ih =>
    intro ps r q hr hq hsk
    obtain ⟨r1, t1, hr1, hev1, -, -, -, hdisj⟩ := runOnePlugin_sync o id p ps hr
    obtain ⟨r2, t2, -, hev2, -⟩ := runPlugins_sync o id rest (runOnePlugin o id p ps) r1 hr1
    rw [runPlugins_cons]
    rcases List.mem_cons.mp hq with hq | hq
    · subst hq
      rcases hdisj with ⟨-, -, -, hTrue⟩ | ⟨m, ht1, -⟩ | ⟨msg, ts, ht1, -⟩
      · rw [hsk] at hTrue
        cases hTrue
      · rw [hev2, hev1, ht1]
        simp
      · rw [hev2, hev1, ht1]
        simp
    · have hcfg := (runOnePlugin_frame o id p ps).2.1
      exact ih (runOnePlugin o id p ps) r1 q hr1 hq (by rw [hcfg]; exact hsk)

theorem lastPluginError_cons (e : PlaygroundEvent) (rest : List PlaygroundEvent) :
    lastPluginError (e :: rest) =
      match lastPluginError rest with
      | some r => some r
      | none =>
        match e with
        | PlaygroundEvent.pluginError _ n m => some (n, m)
        | _ => none := by
  have h : lastPluginError (e :: rest) =
      lastPluginErrorFrom
        (match e with
         | PlaygroundEvent.pluginError _ n m => some (n, m)
         | _ => none) rest := rfl
  rw [h, lastPluginErrorFrom_eq]

/-- A list containing a `pluginError` event has a last plugin error. -/
theorem lastPluginError_isSome_of_mem {t : List PlaygroundEvent}
    {j n m : String} (h : PlaygroundEvent.pluginError j n m ∈ t) :
    (lastPluginError t).isSome = true := by
  induction t with
  | nil => simp at h
  | cons e rest ih =>
    rw [lastPluginError_cons]
    rcases List.mem_cons.mp h with he | hrest
    · cases h2 : lastPluginError rest <;> simp [← he, h2]
    · cases h2 : lastPluginError rest <;> simp [h2]
      · have := ih hrest
        rw [h2] at this
        simp at this

/-- Keys absent from the recorded metrics produce an empty summarize
argument. -/
theorem summarizeInput_eq_nil (metrics : List (String × Json)) (q : String)
    (h : ∀ kv ∈ metrics, kv.1 ≠ q) : summarizeInput metrics q = [] := by
  unfold summarizeInput
  have h2 : metrics.filterMap
      (fun kv => if kv.1 == q then some kv.2 else none) = [] := by
    rw [List.filterMap_eq_nil_iff]
    intro kv hkv
    simp [h kv hkv]
  rw [h2]
  rfl

/-- Looking up a key never removed stays resolvable through `aset` folds. -/
theorem alookup_aset_isSome {α : Type} (acc : List (String × α)) (k k2 : String)
    (v : α) (h : (alookup acc k).isSome = true) :
    (alookup (aset acc k2 v) k).isSome = true := by
  by_cases he : k = k2
  · subst he
    rw [alookup_aset_self]
    rfl
  · rw [alookup_aset_ne acc v he]
    exact h

/-- A contribution `{ name: summary }` among the summary entries guarantees a
summary entry under that name survives the Object.assign fold. -/
theorem foldl_summary_isSome (entries : List (Option (String × Json))) (k : String) :
    ∀ (acc : List (String × Json)),
    ((∃ v, some (k, v) ∈ entries) ∨ (alookup acc k).isSome = true) →
    (alookup (entries.foldl
      (fun acc o =>
        match o with
        | some kv => aset acc kv.1 kv.2
        | none => acc) acc) k).isSome = true := by
  induction entries with
  | nil =>
    intro acc h
    rcases h with ⟨v, hv⟩ | h
    · simp at hv
    · exact h
  | cons o rest ih =>
    intro acc h
    rcases h with ⟨v, hv⟩ | h
    · rcases List.mem_cons.mp hv with he | hrest
      · apply ih
        right
        rw [← he]
        rw [alookup_aset_self]
        rfl
      · apply ih
        left
        exact ⟨v, hrest⟩
    · apply ih
      right
      cases o with
      | none => exact h
      | some kv => exact alookup_aset_isSome acc k kv.1 kv.2 h

/-- An enabled summarizing plugin whose summarize call returns normally gets
an entry in the assembled summary. -/
theorem buildSummary_isSome (plugins : List PlaygroundPlugin)
    (metrics : List (String × Json)) (p : PlaygroundPlugin)
    (f : List Json → Except String Json) (sv : Json)
    (hp : p ∈ plugins) (hen : p.enabled = true) (hsum : p.summarize = some f)
    (hok : f (summarizeInput metrics p.name) = .ok sv) :
    (alookup (buildSummary plugins metrics) p.name).isSome = true := by
  apply foldl_summary_isSome
  left
  refine ⟨sv, ?_⟩
  unfold summaryEntries
  rw [List.mem_map]
  refine ⟨p, ?_, ?_⟩
  · rw [List.mem_filter]
    exact ⟨hp, by simp [hen, hsum]⟩
  · rw [hsum]
    simp [hok]

end Playground

namespace Playground

/-- Full characterization of a successful startJob call: the job runs to
`completed`, is stored back under its id, and keeps its identity, config and
creation data. -/
theorem startJob_spec (o : Nat → Nat → Bool) (plugins : List PlaygroundPlugin)
    (s : ServiceState) (id : String) (job : PlaygroundJob)
    (h : alookup s.jobs id = some job) :
    ∃ s1 j1, startJob o plugins s id = some (s1, j1) ∧
      j1.config = job.config ∧
      j1.id = job.id ∧
      alookup s1.jobs id = some j1 ∧
      s1.nextId = s.nextId ∧
      j1.progress.status = JobStatus.completed ∧
      j1.maxRetries = job.maxRetries ∧
      j1.createdAt = job.createdAt ∧
      j1.result.isSome = true ∧
      j1.progress.endTime.isSome = true ∧
      j1.progress.currentPlugin = none := by
  have e1 : startJob o plugins s id =
      some (startJobFinish o plugins id (runPlugins o id plugins (startJobInit o s id job))) := by
    simp [startJob, h]
  obtain ⟨frameId, frameCfg, frameCreated, -, frameMax, -, -, -, -, -, -, frameJobs,
    frameNext⟩ := runPlugins_frame o id plugins (startJobInit o s id job)
  obtain ⟨r2, -, hr2, -⟩ :=
    runPlugins_sync o id plugins (startJobInit o s id job) (createEmptyResult job) rfl
  refine ⟨(startJobFinish o plugins id (runPlugins o id plugins (startJobInit o s id job))).1,
    (startJobFinish o plugins id (runPlugins o id plugins (startJobInit o s id job))).2,
    ?_, ?_, ?_, ?_, ?_, ?_, ?_, ?_, ?_, ?_, ?_⟩
  · exact e1
  · show (runPlugins o id plugins (startJobInit o s id job)).job.config = job.config
    rw [frameCfg]
    rfl
  · show (runPlugins o id plugins (startJobInit o s id job)).job.id = job.id
    rw [frameId]
    rfl
  · show alookup (aset (runPlugins o id plugins (startJobInit o s id job)).state.jobs id
      ((startJobFinish o plugins id (runPlugins o id plugins (startJobInit o s id job))).2)) id =
      some ((startJobFinish o plugins id (runPlugins o id plugins (startJobInit o s id job))).2)
    rw [alookup_aset_self]
  · show (runPlugins o id plugins (startJobInit o s id job)).state.nextId = s.nextId
    rw [frameNext]
    rfl
  · rfl
  · show (runPlugins o id plugins (startJobInit o s id job)).job.maxRetries = job.maxRetries
    rw [frameMax]
    rfl
  · show (runPlugins o id plugins (startJobInit o s id job)).job.createdAt = job.createdAt
    rw [frameCreated]
    rfl
  · show ((startJobFinish o plugins id
      (runPlugins o id plugins (startJobInit o s id job))).2.result).isSome = true
    simp [startJobFinish, hr2]
  · rfl
  · rfl

/-- Full characterization of createJob: it always succeeds, the stored job
has the requested config, carries the freshly allocated id, ends completed,
and the id counter advances by exactly one. -/
theorem createJob_spec (o : Nat → Nat → Bool) (plugins : List PlaygroundPlugin)
    (s : ServiceState) (cfg : PlaygroundConfig) :
    ∃ s1 j1, createJob o plugins s cfg = some (s1, j1) ∧
      j1.config = cfg ∧
      j1.id = uuid s.nextId ∧
      alookup s1.jobs j1.id = some j1 ∧
      s1.nextId = s.nextId + 1 ∧
      j1.progress.status = JobStatus.completed ∧
      j1.maxRetries = cfg.retries.getD 3 ∧
      j1.createdAt = s.clock := by
  have hset : alookup
      (aset s.jobs (uuid s.nextId)
        { id := uuid s.nextId
          config := cfg
          progress :=
            { status := JobStatus.queued
              startTime := s.clock
              endTime := none
              error := none
              currentPlugin := none
              completedPlugins := [] }
          result := none
          priority := 0
          retries := 0
          maxRetries := cfg.retries.getD 3
          createdAt := s.clock
          updatedAt := s.clock }) (uuid s.nextId) = some
        { id := uuid s.nextId
          config := cfg
          progress :=
            { status := JobStatus.queued
              startTime := s.clock
              endTime := none
              error := none
              currentPlugin := none
              completedPlugins := [] }
          result := none
          priority := 0
          retries := 0
          maxRetries := cfg.retries.getD 3
          createdAt := s.clock
          updatedAt := s.clock } := alookup_aset_self _ _ _
  obtain ⟨s1, j1, he, hcfg, hid, hstore, hnext, hstatus, hmax, hcreated, -, -, -⟩ :=
    startJob_spec o plugins
      { s with
        clock := s.clock + 1
        nextId := s.nextId + 1
        jobs := aset s.jobs (uuid s.nextId)
          { id := uuid s.nextId
            config := cfg
            progress :=
              { status := JobStatus.queued
                startTime := s.clock
                endTime := none
                error := none
                currentPlugin := none
                completedPlugins := [] }
            result := none
            priority := 0
            retries := 0
            maxRetries := cfg.retries.getD 3
            createdAt := s.clock
            updatedAt := s.clock } }
      (uuid s.nextId) _ hset
  refine ⟨s1, j1, he, hcfg, hid, ?_, by simpa using hnext, hstatus, hmax, hcreated⟩
  rw [hid]
  exact hstore

end Playground

/-! ### Claim theorems -/

/-- C4 counterexample: in the playground emitter, with 3 retries and a
receiver that always fails, the inserted delays are 2s then 4s — not the 1s
then 2s the claim (delay before retry n is `2^n` seconds, 1s before attempt
1) requires. -/
theorem C4_counterexample :
    Playground.sendWebhook (fun _ => false) (some 3) = (3, [2, 4]) ∧
      ([2, 4] : List Nat) ≠ [1, 2] := by
  constructor
  · rfl
  · decide

/-- C4 (amended): the crawl-side emitter (QueueService.sendWebhook) delays
exactly `2^n` seconds before retry n (0-indexed): 1s before attempt 1, 2s
before attempt 2; the playground emitter (PlaygroundService.sendWebhook)
delays `2^(n+1)` seconds before retry n: 2s before attempt 1, 4s before
attempt 2. -/
theorem C4_amended_backoff (outcome : Nat → Bool) (retries : Option Nat) :
    (Queue.sendWebhook outcome retries).2 =
      (List.range ((Queue.sendWebhook outcome retries).1 - 1)).map (fun n => 2 ^ n) ∧
    (Playground.sendWebhook outcome retries).2 =
      (List.range ((Playground.sendWebhook outcome retries).1 - 1)).map
        (fun n => 2 ^ (n + 1)) := by
  constructor
  · have h := Queue.qSendWebhookLoop_delays outcome (retries.getD 3) 0
    simpa [Queue.sendWebhook] using h
  · have h := Playground.pSendWebhookLoop_delays outcome (retries.getD 3) 0
    simpa [Playground.sendWebhook] using h

/-- C6 counterexample: a playground webhook config with `retries: 0` (the
playground route forwards `req.body.webhook` unvalidated) produces zero
delivery attempts for an event that passed the filter, violating the
claimed lower bound of one attempt — even against a receiver that would
have accepted the POST. -/
theorem C6_counterexample :
    Playground.sendWebhook (fun _ => true) (some 0) = (0, []) ∧
      ¬ 1 ≤ (Playground.sendWebhook (fun _ => true) (some 0)).1 := by
  constructor
  · rfl
  · decide

/-- C6 (amended): for every webhook event that passes the per-job filter,
the number of POST attempts is at most `config.webhook.retries` (3 when the
field is absent) in both emitters, and at least 1 whenever that bound is at
least 1 — which the crawl route's validation (range 1–5) and the default 3
guarantee, but a playground webhook config with `retries: 0` yields 0
attempts. After the last failed attempt the emitter only logs and drops the
event: delivery outcomes never change the job registry or the event log of
any public operation. -/
theorem C6_amended_attempt_bounds (outcome : Nat → Bool) (r : Nat)
    (o1 o2 : Nat → Nat → Bool) (plugins : List PlaygroundPlugin)
    (s : ServiceState) (op : Playground.ServiceOp) :
    (Queue.sendWebhook outcome (some r)).1 ≤ r ∧
    (Playground.sendWebhook outcome (some r)).1 ≤ r ∧
    (Queue.sendWebhook outcome none).1 ≤ 3 ∧
    (Playground.sendWebhook outcome none).1 ≤ 3 ∧
    (1 ≤ r → 1 ≤ (Queue.sendWebhook outcome (some r)).1) ∧
    (1 ≤ r → 1 ≤ (Playground.sendWebhook outcome (some r)).1) ∧
    1 ≤ (Queue.sendWebhook outcome none).1 ∧
    1 ≤ (Playground.sendWebhook outcome none).1 ∧
    (Playground.step o2 plugins s op).jobs = (Playground.step o1 plugins s op).jobs ∧
    (Playground.step o2 plugins s op).events = (Playground.step o1 plugins s op).events := by
  obtain ⟨hjobs, hev, -, -⟩ := Playground.step_oracle o1 o2 plugins s op
  exact ⟨Queue.qSendWebhookLoop_attempts_le outcome r 0,
    Playground.pSendWebhookLoop_attempts_le outcome r 0,
    Queue.qSendWebhookLoop_attempts_le outcome 3 0,
    Playground.pSendWebhookLoop_attempts_le outcome 3 0,
    fun h => Queue.qSendWebhookLoop_attempts_pos outcome r 0 h,
    fun h => Playground.pSendWebhookLoop_attempts_pos outcome r 0 h,
    Queue.qSendWebhookLoop_attempts_pos outcome 3 0 (by decide),
    Playground.pSendWebhookLoop_attempts_pos outcome 3 0 (by decide),
    hjobs, hev⟩

/-- C6 witness: at retries = 2 with an always-failing receiver, both bounds
are realized. -/
theorem C6_amended_attempt_bounds_witness :
    1 ≤ (2 : Nat) ∧
    (Queue.sendWebhook (fun _ => false) (some 2)).1 ≤ 2 ∧
    1 ≤ (Playground.sendWebhook (fun _ => false) (some 2)).1 := by
  refine ⟨by decide, ?_, ?_⟩
  · exact (C6_amended_attempt_bounds (fun _ => false) 2 (fun _ _ => true)
      (fun _ _ => true) [] initialState (Playground.ServiceOp.getJob "a")).1
  · exact (C6_amended_attempt_bounds (fun _ => false) 2 (fun _ _ => true)
      (fun _ _ => true) [] initialState (Playground.ServiceOp.getJob "a")).2.2.2.2.2.1
      (by decide)

/-- C8: `createJob(cfg)` followed by `getJob` on the returned id yields a job
whose config is structurally the given cfg, and two consecutive createJob
calls — even with identical configs, since cfg2 may equal cfg — return jobs
with distinct ids. -/
theorem C8_createJob_roundtrip (o : Nat → Nat → Bool)
    (plugins : List PlaygroundPlugin) (s : ServiceState)
    (cfg cfg2 : PlaygroundConfig) :
    ∃ s1 j1 s2 j2, Playground.createJob o plugins s cfg = some (s1, j1) ∧
      j1.config = cfg ∧
      Playground.getJob s1 j1.id = some j1 ∧
      Playground.createJob o plugins s1 cfg2 = some (s2, j2) ∧
      j2.config = cfg2 ∧
      Playground.getJob s2 j2.id = some j2 ∧
      j1.id ≠ j2.id := by
  obtain ⟨s1, j1, he1, hcfg1, hid1, hst1, hn1, -, -, -⟩ :=
    Playground.createJob_spec o plugins s cfg
  obtain ⟨s2, j2, he2, hcfg2, hid2, hst2, hn2, -, -, -⟩ :=
    Playground.createJob_spec o plugins s1 cfg2
  refine ⟨s1, j1, s2, j2, he1, hcfg1, hst1, he2, hcfg2, hst2, ?_⟩
  rw [hid1, hid2, hn1]
  intro heq
  have h2 := uuid_injective heq
  omega

/-- C9: happy path with the single string-reversing example plugin. For the
concrete input "hello" the created job completes with one metric entry for
"example" carrying inputLength = outputLength = 5 and a summary entry with
totalProcessed = 1; for every string input, execute returns
inputLength = outputLength = the input's length; and summarize over n
metrics returns totalProcessed = n. -/
theorem C9_example_plugin_happy_path :
    ((Playground.createJob (fun _ _ => true) [examplePlugin] initialState
        { input := Json.str "hello", retries := none, plugins := some ["example"],
          webhook := none, async := none }).map
      fun r => r.2.progress.status) = some JobStatus.completed ∧
    ((Playground.createJob (fun _ _ => true) [examplePlugin] initialState
        { input := Json.str "hello", retries := none, plugins := some ["example"],
          webhook := none, async := none }).map
      fun r => r.2.result.map fun res => res.metrics.map
        fun kv => (kv.1, kv.2.getField "inputLength", kv.2.getField "outputLength")) =
      some (some [("example", some (Json.num 5), some (Json.num 5))]) ∧
    ((Playground.createJob (fun _ _ => true) [examplePlugin] initialState
        { input := Json.str "hello", retries := none, plugins := some ["example"],
          webhook := none, async := none }).map
      fun r => r.2.result.map fun res => res.summary.map
        fun sv => (alookup sv "example").map
          fun sj => sj.getField "totalProcessed") =
      some (some (some (some (some (Json.num 1))))) ∧
    (∀ (inp jobId : String) (output : Option Json) (startT : Nat)
        (storage : List (String × Json)) (now : Nat),
      ∃ m ctx2, examplePluginExecute ⟨jobId, Json.str inp, output, startT, storage⟩ now =
          .ok (m, ctx2) ∧
        m.getField "inputLength" = some (Json.num inp.length) ∧
        m.getField "outputLength" = some (Json.num inp.length)) ∧
    (∀ ms : List Json, ∃ sj, examplePluginSummarize ms = .ok sj ∧
      sj.getField "totalProcessed" = some (Json.num ms.length)) := by
  refine ⟨rfl, rfl, rfl, ?_, ?_⟩
  · intro inp jobId output startT storage now
    have hlen : (reverseString inp).length = inp.length := by
      have h2 : inp.data.reverse.length = inp.data.length := List.length_reverse _
      exact h2
    refine ⟨_, _, rfl, rfl, ?_⟩
    show some (Json.num ((reverseString inp).length : Int)) =
      some (Json.num (inp.length : Int))
    rw [hlen]
  · intro ms
    exact ⟨_, rfl, rfl⟩

/-- C7: per-job webhook filtering, in both emitters. A delivery is attempted
for an emitted event iff the event has an outbound name
(started/progress/completed/failed) and either `config.webhook.on` is absent
or that name is listed in it; adding a name that matches no event to the
filter changes nothing. -/
theorem C7_webhook_filter (o : Nat → Nat → Bool) (oq : Nat → Bool)
    (j : PlaygroundJob) (e : PlaygroundEvent) (s : ServiceState)
    (w : WebhookConfig) (hw : j.config.webhook = some w)
    (jq : Queue.CrawlJob) (eq2 : Queue.CrawlEvent) (wq : WebhookConfig)
    (hwq : jq.config.webhook = some wq)
    (ds : List WebhookDelivery) (l : List String) (x t : String)
    (ht : t ∈ ["started", "progress", "completed", "failed"])
    (hx : x ∉ ["started", "progress", "completed", "failed"]) :
    ((Playground.emitEvent o j e s).deliveries ≠ s.deliveries ↔
      ∃ t2, Playground.outboundName e = some t2 ∧
        Playground.shouldSendWebhook j t2 = true) ∧
    (∀ t2, Playground.shouldSendWebhook j t2 = true ↔
      (w.onEvents = none ∨ ∃ lw, w.onEvents = some lw ∧ t2 ∈ lw)) ∧
    (Queue.handleEvent oq jq eq2 ds ≠ ds ↔
      Queue.shouldSendWebhook jq (Queue.outboundName eq2) = true) ∧
    (∀ t2, Queue.shouldSendWebhook jq t2 = true ↔
      (wq.onEvents = none ∨ ∃ lw, wq.onEvents = some lw ∧ t2 ∈ lw)) ∧
    Playground.shouldSendWebhook
        { j with config := { j.config with
            webhook := some { w with onEvents := some (x :: l) } } } t =
      Playground.shouldSendWebhook
        { j with config := { j.config with
            webhook := some { w with onEvents := some l } } } t ∧
    Queue.shouldSendWebhook
        { jq with config := { jq.config with
            webhook := some { wq with onEvents := some (x :: l) } } } t =
      Queue.shouldSendWebhook
        { jq with config := { jq.config with
            webhook := some { wq with onEvents := some l } } } t := by
  have hxt : ¬ t = x := fun he => hx (he ▸ ht)
  refine ⟨?_, ?_, ?_, ?_, ?_, ?_⟩
  · rw [Playground.emitEvent_deliveries]
    constructor
    · intro hne
      by_contra hno
      apply hne
      cases houtb : Playground.outboundName e with
      | none =>
        rw [Playground.deliveryOf_none o j e _ houtb]
        simp
      | some t2 =>
        cases hsend : Playground.shouldSendWebhook j t2 with
        | false =>
          rw [Playground.deliveryOf_filtered o j e _ houtb hsend]
          simp
        | true => exact absurd ⟨t2, houtb, hsend⟩ hno
    · rintro ⟨t2, houtb, hsend⟩
      rw [Playground.deliveryOf_sent o j e _ houtb hsend hw]
      intro heq
      have hlen := congrArg List.length heq
      simp at hlen
  · intro t2
    cases hon : w.onEvents with
    | none => simp [Playground.shouldSendWebhook, hw, hon]
    | some lw => simp [Playground.shouldSendWebhook, hw, hon]
  · unfold Queue.handleEvent
    rw [hwq]
    cases hsend : Queue.shouldSendWebhook jq (Queue.outboundName eq2) with
    | false => simp
    | true =>
      simp only [if_true]
      constructor
      · intro _
        trivial
      · intro _ heq
        have hlen := congrArg List.length heq
        simp at hlen
  · intro t2
    cases hon : wq.onEvents with
    | none => simp [Queue.shouldSendWebhook, hwq, hon]
    | some lw => simp [Queue.shouldSendWebhook, hwq, hon]
  · simp [Playground.shouldSendWebhook, hxt]
  · simp [Queue.shouldSendWebhook, hxt]

/-- C7 witness: concrete instantiation of the filter characterization (all
hypotheses discharged on a concrete job, config and event names). -/
theorem C7_webhook_filter_witness :
    (Playground.shouldSendWebhook witPlaygroundJob "completed" = true ↔
      (witWebhookConfig.onEvents = none ∨
        ∃ lw, witWebhookConfig.onEvents = some lw ∧ "completed" ∈ lw)) ∧
    (Queue.shouldSendWebhook witCrawlJob "failed" = true ↔
      (witWebhookConfig.onEvents = none ∨
        ∃ lw, witWebhookConfig.onEvents = some lw ∧ "failed" ∈ lw)) :=
  ⟨(C7_webhook_filter (fun _ _ => true) (fun _ => true) witPlaygroundJob
      (PlaygroundEvent.jobStart "j1") initialState witWebhookConfig rfl
      witCrawlJob Queue.CrawlEvent.jobStart witWebhookConfig rfl
      [] [] "bogus" "completed" (by decide) (by decide)).2.1 "completed",
   (C7_webhook_filter (fun _ _ => true) (fun _ => true) witPlaygroundJob
      (PlaygroundEvent.jobStart "j1") initialState witWebhookConfig rfl
      witCrawlJob Queue.CrawlEvent.jobStart witWebhookConfig rfl
      [] [] "bogus" "failed" (by decide) (by decide)).2.2.2.1 "failed"⟩

/-- C2 counterexample: create a job (it completes), fail it once (now
terminal with status failed, endTime 6, five events); a second failJob call
on this terminal job re-stamps endTime to 9 and emits a sixth jobError
event — it is not a no-op. -/
theorem C2_counterexample :
    ((Playground.failJob (fun _ _ => true)
        (Playground.step (fun _ _ => true) [examplePlugin] initialState
          (Playground.ServiceOp.createJob
            { input := Json.str "x", retries := none, plugins := none,
              webhook := none, async := none })) "job-" "e").map
      fun r => (r.2.progress.status, r.2.progress.endTime, r.1.events.length)) =
      some (JobStatus.failed, some 6, 5) ∧
    ((Playground.failJob (fun _ _ => true)
        (Playground.step (fun _ _ => true) [examplePlugin] initialState
          (Playground.ServiceOp.createJob
            { input := Json.str "x", retries := none, plugins := none,
              webhook := none, async := none })) "job-" "e").map
      fun r => ((Playground.failJob (fun _ _ => true) r.1 "job-" "e").map
        fun r2 => (r2.2.progress.endTime, r2.1.events.length))) =
      some (some (some 9, 6)) ∧
    (some 9 : Option Nat) ≠ some 6 ∧ (6 : Nat) ≠ 5 := by
  exact ⟨rfl, rfl, by decide, by decide⟩

/-- C2 (amended): failJob on an existing job — terminal or not — is never a
no-op: it sets status failed, re-stamps endTime and updatedAt from the
clock, overwrites progress.error and result.error (the new error record has
no plugin field), appends another jobError event, and stores the job back. -/
theorem C2_amended_failJob_overwrites (o : Nat → Nat → Bool) (s : ServiceState)
    (id msg : String) (h : (alookup s.jobs id).isSome = true) :
    ((Playground.failJob o s id msg).map fun r => r.2.progress.status) =
      some JobStatus.failed ∧
    ((Playground.failJob o s id msg).map fun r => r.2.progress.endTime) =
      some (some s.clock) ∧
    ((Playground.failJob o s id msg).map fun r => r.2.progress.error) =
      some (some msg) ∧
    ((Playground.failJob o s id msg).map fun r => r.2.updatedAt) =
      some (s.clock + 1) ∧
    ((Playground.failJob o s id msg).map fun r => r.2.result.map fun res => res.error) =
      some (some (some { message := msg, plugin := none, timestamp := s.clock + 2 })) ∧
    ((Playground.failJob o s id msg).map fun r => r.1.events) =
      some (s.events ++ [PlaygroundEvent.jobError id msg]) ∧
    ((Playground.failJob o s id msg).map fun r => alookup r.1.jobs id) =
      ((Playground.failJob o s id msg).map fun r => some r.2) := by
  obtain ⟨job, hj⟩ := Option.isSome_iff_exists.mp h
  cases hres : job.result <;>
    simp [Playground.failJob, hj, hres, Playground.emitEvent,
      Playground.createEmptyResult, alookup_aset_self]

/-- C2 witness: the amended failJob characterization applied to a concrete
stored job. -/
theorem C2_amended_failJob_overwrites_witness :
    ((Playground.failJob (fun _ _ => true) witState "j1" "boom").map
      fun r => r.2.progress.status) = some JobStatus.failed ∧
    ((Playground.failJob (fun _ _ => true) witState "j1" "boom").map
      fun r => r.1.events) =
      some (witState.events ++ [PlaygroundEvent.jobError "j1" "boom"]) :=
  ⟨(C2_amended_failJob_overwrites (fun _ _ => true) witState "j1" "boom" (by rfl)).1,
   (C2_amended_failJob_overwrites (fun _ _ => true) witState "j1" "boom"
      (by rfl)).2.2.2.2.2.1⟩

/-- C1 counterexample: a job that completed (terminal, endTime stamped at 4)
is mutated again by a failJob call: its status moves completed → failed — a
transition outside queued → running → (completed|failed) — and its endTime
changes, so a terminal job's fields do change under further public
operations. -/
theorem C1_counterexample :
    ((Playground.getJob
        (Playground.step (fun _ _ => true) [examplePlugin] initialState
          (Playground.ServiceOp.createJob
            { input := Json.str "x", retries := none, plugins := none,
              webhook := none, async := none })) "job-").map
      fun j => (j.progress.status, j.progress.endTime)) =
      some (JobStatus.completed, some 4) ∧
    ((Playground.getJob
        (Playground.step (fun _ _ => true) [examplePlugin]
          (Playground.step (fun _ _ => true) [examplePlugin] initialState
            (Playground.ServiceOp.createJob
              { input := Json.str "x", retries := none, plugins := none,
                webhook := none, async := none }))
          (Playground.ServiceOp.failJob "job-" "e")) "job-").map
      fun j => (j.progress.status, j.progress.endTime)) =
      some (JobStatus.failed, some 6) ∧
    JobStatus.completed ≠ JobStatus.failed ∧ (some 4 : Option Nat) ≠ some 6 := by
  exact ⟨rfl, rfl, by decide, by decide⟩

namespace Playground

/-- A successful startJob call touches no job other than the one named. -/
theorem startJob_jobs_other (o : Nat → Nat → Bool) (plugins : List PlaygroundPlugin)
    (s : ServiceState) (id id2 : String) (hne : id ≠ id2)
    (s2 : ServiceState) (j2 : PlaygroundJob)
    (hv : startJob o plugins s id2 = some (s2, j2)) :
    alookup s2.jobs id = alookup s.jobs id := by
  cases hlook : alookup s.jobs id2 with
  | none => simp [startJob, hlook] at hv
  | some job =>
    have e1 : startJob o plugins s id2 =
        some (startJobFinish o plugins id2
          (runPlugins o id2 plugins (startJobInit o s id2 job))) := by
      simp [startJob, hlook]
    rw [e1] at hv
    injection hv with h2
    have hfst : (startJobFinish o plugins id2
        (runPlugins o id2 plugins (startJobInit o s id2 job))).1 = s2 :=
      congrArg Prod.fst h2
    rw [← hfst]
    have hjobs : (startJobFinish o plugins id2
        (runPlugins o id2 plugins (startJobInit o s id2 job))).1.jobs =
        aset (runPlugins o id2 plugins (startJobInit o s id2 job)).state.jobs id2
          ((startJobFinish o plugins id2
            (runPlugins o id2 plugins (startJobInit o s id2 job))).2) := rfl
    rw [hjobs, alookup_aset_ne _ _ hne,
      (runPlugins_frame o id2 plugins (startJobInit o s id2 job)).2.2.2.2.2.2.2.2.2.2.2.1]
    rfl

/-- A successful failJob call touches no job other than the one named. -/
theorem failJob_jobs_other (o : Nat → Nat → Bool) (s : ServiceState)
    (id id2 msg : String) (hne : id ≠ id2)
    (s2 : ServiceState) (j2 : PlaygroundJob)
    (hv : failJob o s id2 msg = some (s2, j2)) :
    alookup s2.jobs id = alookup s.jobs id := by
  cases hlook : alookup s.jobs id2 with
  | none => simp [failJob, hlook] at hv
  | some job =>
    cases hres : job.result with
    | none =>
      simp [failJob, hlook, hres, emitEvent] at hv
      rw [← hv.1]
      simp only []
      rw [alookup_aset_ne _ _ hne]
    | some r =>
      simp [failJob, hlook, hres, emitEvent] at hv
      rw [← hv.1]
      simp only []
      rw [alookup_aset_ne _ _ hne]

/-- A successful createJob call touches no existing job (the new job lives
under the freshly allocated id). -/
theorem createJob_jobs_other (o : Nat → Nat → Bool) (plugins : List PlaygroundPlugin)
    (s : ServiceState) (cfg : PlaygroundConfig) (id : String)
    (hne : id ≠ uuid s.nextId)
    (s2 : ServiceState) (j2 : PlaygroundJob)
    (hv : createJob o plugins s cfg = some (s2, j2)) :
    alookup s2.jobs id = alookup s.jobs id := by
  simp only [createJob] at hv
  have h2 := startJob_jobs_other o plugins _ id (uuid s.nextId) hne s2 j2 hv
  rw [h2]
  simp only []
  rw [alookup_aset_ne _ _ hne]

end Playground

/-- C1 (amended): across the public operations, reads (getJob, getProgress)
change nothing, operations on one id never change another job, and within a
single run the job is first marked running and then completed (or failed via
failJob). But terminal states are not frozen: startJob has no terminal
guard, so on any existing job — terminal included — it re-runs the job to
completed, and failJob on any existing job — terminal included — rewrites it
to failed. -/
theorem C1_amended_transitions (o : Nat → Nat → Bool)
    (plugins : List PlaygroundPlugin) (s : ServiceState)
    (id id2 msg : String) (cfg : PlaygroundConfig) (j : PlaygroundJob) :
    Playground.step o plugins s (Playground.ServiceOp.getJob id) = s ∧
    Playground.step o plugins s (Playground.ServiceOp.getProgress id) = s ∧
    (id ≠ id2 →
      alookup (Playground.step o plugins s
        (Playground.ServiceOp.startJob id2)).jobs id = alookup s.jobs id) ∧
    (id ≠ id2 →
      alookup (Playground.step o plugins s
        (Playground.ServiceOp.failJob id2 msg)).jobs id = alookup s.jobs id) ∧
    (id ≠ uuid s.nextId →
      alookup (Playground.step o plugins s
        (Playground.ServiceOp.createJob cfg)).jobs id = alookup s.jobs id) ∧
    (Playground.startJobInit o s id j).job.progress.status = JobStatus.running ∧
    ((alookup s.jobs id).isSome = true →
      ∃ s2 j2, Playground.startJob o plugins s id = some (s2, j2) ∧
        j2.progress.status = JobStatus.completed ∧
        alookup s2.jobs id = some j2) ∧
    ((alookup s.jobs id).isSome = true →
      ((Playground.failJob o s id msg).map fun r => r.2.progress.status) =
        some JobStatus.failed) := by
  refine ⟨rfl, rfl, ?_, ?_, ?_, rfl, ?_, ?_⟩
  · intro hne
    cases hv : Playground.startJob o plugins s id2 with
    | none => simp [Playground.step, hv]
    | some r =>
      obtain ⟨s2, j2⟩ := r
      simp only [Playground.step, hv]
      exact Playground.startJob_jobs_other o plugins s id id2 hne s2 j2 hv
  · intro hne
    cases hv : Playground.failJob o s id2 msg with
    | none => simp [Playground.step, hv]
    | some r =>
      obtain ⟨s2, j2⟩ := r
      simp only [Playground.step, hv]
      exact Playground.failJob_jobs_other o s id id2 msg hne s2 j2 hv
  · intro hne
    cases hv : Playground.createJob o plugins s cfg with
    | none => simp [Playground.step, hv]
    | some r =>
      obtain ⟨s2, j2⟩ := r
      simp only [Playground.step, hv]
      exact Playground.createJob_jobs_other o plugins s cfg id hne s2 j2 hv
  · intro h
    obtain ⟨job, hj⟩ := Option.isSome_iff_exists.mp h
    obtain ⟨s2, j2, he, -, -, hst, -, hstatus, -, -, -, -, -⟩ :=
      Playground.startJob_spec o plugins s id job hj
    exact ⟨s2, j2, he, hstatus, hst⟩
  · intro h
    obtain ⟨job, hj⟩ := Option.isSome_iff_exists.mp h
    cases hres : job.result <;> simp [Playground.failJob, hj, hres]

/-- C1 witness: concrete instantiation — operations on another id leave a
stored job unchanged, and startJob/failJob on the stored job run it to
completed respectively failed. -/
theorem C1_amended_transitions_witness :
    alookup (Playground.step (fun _ _ => true) [examplePlugin] witState
      (Playground.ServiceOp.startJob "other")).jobs "j1" =
      alookup witState.jobs "j1" ∧
    (∃ s2 j2, Playground.startJob (fun _ _ => true) [examplePlugin] witState "j1" =
        some (s2, j2) ∧ j2.progress.status = JobStatus.completed ∧
        alookup s2.jobs "j1" = some j2) ∧
    ((Playground.failJob (fun _ _ => true) witState "j1" "e").map
      fun r => r.2.progress.status) = some JobStatus.failed :=
  ⟨(C1_amended_transitions (fun _ _ => true) [examplePlugin] witState "j1" "other"
      "e" { input := Json.null, retries := none, plugins := none, webhook := none,
            async := none } witPlaygroundJob).2.2.1 (by decide),
   (C1_amended_transitions (fun _ _ => true) [examplePlugin] witState "j1" "other"
      "e" { input := Json.null, retries := none, plugins := none, webhook := none,
            async := none } witPlaygroundJob).2.2.2.2.2.2.1 (by rfl),
   (C1_amended_transitions (fun _ _ => true) [examplePlugin] witState "j1" "other"
      "e" { input := Json.null, retries := none, plugins := none, webhook := none,
            async := none } witPlaygroundJob).2.2.2.2.2.2.2 (by rfl)⟩

namespace Playground

/-- The completed-plugins list of a job returned by startJob is a
subsequence of the service's plugin names, in list order. -/
theorem startJob_completed_sub (o : Nat → Nat → Bool)
    (plugins : List PlaygroundPlugin) (s : ServiceState) (id : String)
    (s2 : ServiceState) (j2 : PlaygroundJob)
    (hv : startJob o plugins s id = some (s2, j2)) :
    List.Sublist j2.progress.completedPlugins
      (plugins.map PlaygroundPlugin.name) := by
  cases hlook : alookup s.jobs id with
  | none => simp [startJob, hlook] at hv
  | some job =>
    have e1 : startJob o plugins s id =
        some (startJobFinish o plugins id
          (runPlugins o id plugins (startJobInit o s id job))) := by
      simp [startJob, hlook]
    rw [e1] at hv
    injection hv with h2
    have hsnd : (startJobFinish o plugins id
        (runPlugins o id plugins (startJobInit o s id job))).2 = j2 :=
      congrArg Prod.snd h2
    obtain ⟨r2, t, hr2, hev, hsum, hcfg2, hprog, ⟨n, hcomp, hsub⟩, -, -⟩ :=
      runPlugins_sync o id plugins (startJobInit o s id job)
        (createEmptyResult job) rfl
    have hfin : j2.progress.completedPlugins =
        (runPlugins o id plugins (startJobInit o s id job)).job.progress.completedPlugins := by
      rw [← hsnd]
      rfl
    rw [hfin, hcomp]
    simpa using hsub

end Playground

/-- C3 counterexample: the HTTP route builds one ExamplePlugin instance per
entry of req.body.plugins — all named "example" — and its config carries no
plugin filter; with two entries the finished job's completedPlugins is
["example", "example"], whose entries are not pairwise distinct. -/
theorem C3_counterexample :
    ((Playground.createJob (fun _ _ => true) (routePlugins ["a", "b"]) initialState
        (routeConfig (Json.str "x") none none none)).map
      fun r => r.2.progress.completedPlugins) = some ["example", "example"] ∧
    ¬ (["example", "example"] : List String).Nodup := by
  exact ⟨rfl, by decide⟩

/-- C3 (amended): completedPlugins is always a subsequence of the service's
plugin names in execution (list) order, so its entries are pairwise distinct
whenever the plugin names are pairwise distinct; but the HTTP route's plugin
list gives every instance the same name "example", so any request with two
or more entries in req.body.plugins yields duplicate completedPlugins
entries. -/
theorem C3_amended_completedPlugins (o : Nat → Nat → Bool)
    (plugins : List PlaygroundPlugin) (s : ServiceState)
    (cfg : PlaygroundConfig) (s1 : ServiceState) (j1 : PlaygroundJob)
    (hv : Playground.createJob o plugins s cfg = some (s1, j1)) :
    List.Sublist j1.progress.completedPlugins
      (plugins.map PlaygroundPlugin.name) ∧
    ((plugins.map PlaygroundPlugin.name).Nodup →
      j1.progress.completedPlugins.Nodup) ∧
    (∀ l : List String,
      (routePlugins l).map PlaygroundPlugin.name = l.map fun _ => "example") := by
  simp only [Playground.createJob] at hv
  have hsub := Playground.startJob_completed_sub o plugins _ _ s1 j1 hv
  refine ⟨hsub, ?_, ?_⟩
  · intro hnd
    exact List.Nodup.sublist hsub hnd
  · intro l
    simp [routePlugins, examplePlugin]

/-- C3 witness: the amended characterization applied to a concrete
createJob call. -/
theorem C3_amended_completedPlugins_witness :
    ∃ s1 j1, Playground.createJob (fun _ _ => true) [examplePlugin] initialState
        (routeConfig (Json.str "x") none none none) = some (s1, j1) ∧
      List.Sublist j1.progress.completedPlugins
        ([examplePlugin].map PlaygroundPlugin.name) := by
  obtain ⟨s1, j1, hv, -, -, -, -, -, -, -⟩ :=
    Playground.createJob_spec (fun _ _ => true) [examplePlugin] initialState
      (routeConfig (Json.str "x") none none none)
  exact ⟨s1, j1, hv,
    (C3_amended_completedPlugins (fun _ _ => true) [examplePlugin] initialState
      (routeConfig (Json.str "x") none none none) s1 j1 hv).1⟩

/-- C10 counterexample: an enabled plugin implementing summarize whose
summarize call throws is omitted from result.summary (the source logs and
contributes `{}`), so result.summary does not contain an entry for every
enabled summarizing plugin. -/
theorem C10_counterexample :
    badSummaryPlugin.enabled = true ∧
    badSummaryPlugin.summarize.isSome = true ∧
    ((Playground.createJob (fun _ _ => true) [badSummaryPlugin] initialState
        { input := Json.null, retries := none, plugins := none,
          webhook := none, async := none }).map
      fun r => r.2.result.map fun res => res.summary.map
        fun sv => alookup sv "badsum") = some (some (some none)) := by
  exact ⟨rfl, rfl, rfl⟩

/-- C10 (amended): at the end of every run the summary phase consults every
enabled plugin that implements summarize — including plugins excluded from
execution by the config.plugins filter, whose recorded-metrics argument is
empty — and result.summary is exactly the Object.assign of their
contributions; it contains an entry for every enabled summarizing plugin
whose summarize call returns normally (a throwing summarize is omitted). -/
theorem C10_amended_summaries (o : Nat → Nat → Bool)
    (plugins : List PlaygroundPlugin) (s : ServiceState) (id : String)
    (job : PlaygroundJob) (hlook : alookup s.jobs id = some job)
    (p : PlaygroundPlugin) (f : List Json → Except String Json)
    (hp : p ∈ plugins) (hen : p.enabled = true) (hsum : p.summarize = some f) :
    ∃ s2 j2 r, Playground.startJob o plugins s id = some (s2, j2) ∧
      j2.result = some r ∧
      r.summary = some (Playground.buildSummary plugins r.metrics) ∧
      (∀ lcfg, job.config.plugins = some lcfg → p.name ∉ lcfg →
        Playground.summarizeInput r.metrics p.name = []) ∧
      (∀ sv, f (Playground.summarizeInput r.metrics p.name) = Except.ok sv →
        (alookup (Playground.buildSummary plugins r.metrics) p.name).isSome = true) ∧
      p ∈ plugins.filter fun q => q.enabled && q.summarize.isSome := by
  have e1 : Playground.startJob o plugins s id =
      some (Playground.startJobFinish o plugins id
        (Playground.runPlugins o id plugins (Playground.startJobInit o s id job))) := by
    simp [Playground.startJob, hlook]
  obtain ⟨r2, t, hr2, -, -, -, -, -, ⟨tailm, hm, hmem⟩, -⟩ :=
    Playground.runPlugins_sync o id plugins (Playground.startJobInit o s id job)
      (Playground.createEmptyResult job) rfl
  have hm2 : r2.metrics = tailm := by
    simpa [Playground.createEmptyResult] using hm
  refine ⟨(Playground.startJobFinish o plugins id
      (Playground.runPlugins o id plugins (Playground.startJobInit o s id job))).1,
    (Playground.startJobFinish o plugins id
      (Playground.runPlugins o id plugins (Playground.startJobInit o s id job))).2,
    { r2 with
      summary := some (Playground.buildSummary plugins r2.metrics)
      progress := (Playground.startJobFinish o plugins id
        (Playground.runPlugins o id plugins (Playground.startJobInit o s id job))).2.progress },
    e1, ?_, rfl, ?_, ?_, ?_⟩
  · simp [Playground.startJobFinish, hr2]
  · intro lcfg hcfg hnot
    apply Playground.summarizeInput_eq_nil
    intro kv hkv
    have hkv2 : kv ∈ tailm := by
      rw [show ({ r2 with
          summary := some (Playground.buildSummary plugins r2.metrics)
          progress := (Playground.startJobFinish o plugins id
            (Playground.runPlugins o id plugins
              (Playground.startJobInit o s id job))).2.progress } :
          PlaygroundResult).metrics = r2.metrics from rfl, hm2] at hkv
      exact hkv
    obtain ⟨p2, hp2, hname, hskip⟩ := hmem kv hkv2
    intro heq
    have hcfg2 : (Playground.startJobInit o s id job).job.config.plugins = some lcfg := hcfg
    rw [Playground.pluginSkipped, hcfg2] at hskip
    simp at hskip
    have hmem2 : p2.name ∈ lcfg := hskip.2
    rw [← hname, heq] at hmem2
    exact hnot hmem2
  · intro sv hok
    exact Playground.buildSummary_isSome plugins _ p f sv hp hen hsum hok
  · rw [List.mem_filter]
    exact ⟨hp, by simp [hen, hsum]⟩

/-- C10 witness: the amended summary characterization applied to a stored
job and the example plugin. -/
theorem C10_amended_summaries_witness :
    ∃ s2 j2 r, Playground.startJob (fun _ _ => true) [examplePlugin] witState "j1" =
        some (s2, j2) ∧
      j2.result = some r ∧
      r.summary = some (Playground.buildSummary [examplePlugin] r.metrics) := by
  obtain ⟨s2, j2, r, he, hres, hsummary, -, -, -⟩ :=
    C10_amended_summaries (fun _ _ => true) [examplePlugin] witState "j1"
      witPlaygroundJob rfl examplePlugin examplePluginSummarize
      (List.mem_singleton.mpr rfl) rfl rfl
  exact ⟨s2, j2, r, he, hres, hsummary⟩

namespace Playground

/-- When a plugin is processed and one of its hooks throws, the loop
iteration emits `pluginStart` then `pluginError`, records the error on the
result (keeping everything else), and leaves `completedPlugins` alone. -/
theorem runOnePlugin_fails (o : Nat → Nat → Bool) (id : String)
    (p : PlaygroundPlugin) (ps : PipelineState) (msg : String)
    {r : PlaygroundResult}
    (hsk : pluginSkipped ps.job.config p = false)
    (hf : pluginHooksRun p ps.ctx ps.state.clock = Except.error msg)
    (hr : ps.job.result = some r) :
    ∃ ts, (runOnePlugin o id p ps).job.result =
        some { r with error := some { message := msg, plugin := some p.name, timestamp := ts } } ∧
      (runOnePlugin o id p ps).state.events = ps.state.events ++
        [PlaygroundEvent.pluginStart id p.name,
         PlaygroundEvent.pluginError id p.name msg] ∧
      (runOnePlugin o id p ps).job.progress.completedPlugins =
        ps.job.progress.completedPlugins := by
  unfold pluginHooksRun at hf
  cases hb : hookBefore p ps.ctx ps.state.clock with
  | error m0 =>
    simp only [hb] at hf
    have hm : m0 = msg := by simpa using hf
    subst hm
    refine ⟨ps.state.clock, ?_, ?_, ?_⟩ <;>
      simp [runOnePlugin, hsk, hb, pluginFail, emitEvent, hr]
  | ok ctx1 =>
    simp only [hb] at hf
    cases he : p.execute ctx1 ps.state.clock with
    | error m0 =>
      simp only [he] at hf
      have hm : m0 = msg := by simpa using hf
      subst hm
      refine ⟨ps.state.clock, ?_, ?_, ?_⟩ <;>
        simp [runOnePlugin, hsk, hb, he, pluginFail, emitEvent, hr]
    | ok mc =>
      simp only [he] at hf
      cases ha : hookAfter p mc.2 ps.state.clock with
      | error m0 =>
        simp only [ha] at hf
        have hm : m0 = msg := by simpa using hf
        subst hm
        refine ⟨ps.state.clock, ?_, ?_, ?_⟩ <;>
          simp [runOnePlugin, hsk, hb, he, ha, pluginFail, emitEvent, hr]
      | ok ctx3 =>
        simp only [ha] at hf
        simp at hf

end Playground

/-- C5: a throwing plugin is isolated. If, in a startJob run over the plugin
list `pre ++ p :: post`, the enabled non-filtered plugin `p` throws (its
before/execute/after sequence errors on the context it receives), then a
pluginError event is emitted for `p`, every later processed plugin still
executes (its pluginStart is emitted), the job still completes (and
jobComplete is emitted), result.error holds the record of the LAST plugin
error of the run (message/plugin fields, last writer wins), and when the
job's webhook filter admits "completed" the completed delivery is still
made. -/
theorem C5_plugin_isolation (o : Nat → Nat → Bool)
    (pre post : List PlaygroundPlugin) (p : PlaygroundPlugin)
    (s : ServiceState) (id msg : String) (job : PlaygroundJob)
    (hlook : alookup s.jobs id = some job)
    (hskip : Playground.pluginSkipped job.config p = false)
    (hfail : Playground.pluginHooksRun p
        (Playground.runPlugins o id pre (Playground.startJobInit o s id job)).ctx
        (Playground.runPlugins o id pre
          (Playground.startJobInit o s id job)).state.clock =
      Except.error msg) :
    ∃ s2 j2, Playground.startJob o (pre ++ p :: post) s id = some (s2, j2) ∧
      PlaygroundEvent.pluginError id p.name msg ∈ s2.events ∧
      (∀ q ∈ post, Playground.pluginSkipped job.config q = false →
        PlaygroundEvent.pluginStart id q.name ∈ s2.events) ∧
      j2.progress.status = JobStatus.completed ∧
      PlaygroundEvent.jobComplete id ∈ s2.events ∧
      (∃ r er tl nm, j2.result = some r ∧ r.error = some er ∧
        Playground.lastPluginError tl = some nm ∧
        er.message = nm.2 ∧ er.plugin = some nm.1 ∧
        s2.events = s.events ++ [PlaygroundEvent.jobStart id] ++ tl ++
          [PlaygroundEvent.jobComplete id]) ∧
      (∀ w, job.config.webhook = some w →
        Playground.shouldSendWebhook job "completed" = true →
        ∃ ds d, s2.deliveries = ds ++ [d] ∧ d.event = "completed" ∧
          d.url = w.url) := by
  have e1 : Playground.startJob o (pre ++ p :: post) s id =
      some (Playground.startJobFinish o (pre ++ p :: post) id
        (Playground.runPlugins o id (pre ++ p :: post)
          (Playground.startJobInit o s id job))) := by
    simp [Playground.startJob, hlook]
  have hdec : Playground.runPlugins o id (pre ++ p :: post)
      (Playground.startJobInit o s id job) =
      Playground.runPlugins o id post (Playground.runOnePlugin o id p
        (Playground.runPlugins o id pre (Playground.startJobInit o s id job))) := by
    rw [Playground.runPlugins_append, Playground.runPlugins_cons]
  obtain ⟨rM, tpre, hrM, hevpre, -, -, -, -, -, -⟩ :=
    Playground.runPlugins_sync o id pre (Playground.startJobInit o s id job)
      (Playground.createEmptyResult job) rfl
  have hmidcfg : (Playground.runPlugins o id pre
      (Playground.startJobInit o s id job)).job.config = job.config := by
    rw [(Playground.runPlugins_frame o id pre
      (Playground.startJobInit o s id job)).2.1]
    rfl
  have hskM : Playground.pluginSkipped (Playground.runPlugins o id pre
      (Playground.startJobInit o s id job)).job.config p = false := by
    rw [hmidcfg]
    exact hskip
  obtain ⟨ts0, hres1, hev1, -⟩ :=
    Playground.runOnePlugin_fails o id p
      (Playground.runPlugins o id pre (Playground.startJobInit o s id job))
      msg hskM hfail hrM
  obtain ⟨r2, t2, hr2, hev2, -, -, -, -, -, herr2⟩ :=
    Playground.runPlugins_sync o id post
      (Playground.runOnePlugin o id p (Playground.runPlugins o id pre
        (Playground.startJobInit o s id job)))
      { rM with error := some { message := msg, plugin := some p.name, timestamp := ts0 } }
      hres1
  have hr2' : (Playground.runPlugins o id (pre ++ p :: post)
      (Playground.startJobInit o s id job)).job.result = some r2 := by
    rw [hdec]
    exact hr2
  have hevfin : (Playground.startJobFinish o (pre ++ p :: post) id
      (Playground.runPlugins o id (pre ++ p :: post)
        (Playground.startJobInit o s id job))).1.events =
      (Playground.runPlugins o id (pre ++ p :: post)
        (Playground.startJobInit o s id job)).state.events ++
        [PlaygroundEvent.jobComplete id] := rfl
  have hevP : (Playground.runPlugins o id (pre ++ p :: post)
      (Playground.startJobInit o s id job)).state.events =
      s.events ++ [PlaygroundEvent.jobStart id] ++
        (tpre ++ ([PlaygroundEvent.pluginStart id p.name,
          PlaygroundEvent.pluginError id p.name msg] ++ t2)) := by
    rw [hdec, hev2, hev1, hevpre]
    have hinit : (Playground.startJobInit o s id job).state.events =
        s.events ++ [PlaygroundEvent.jobStart id] := rfl
    rw [hinit]
    simp [List.append_assoc]
  refine ⟨(Playground.startJobFinish o (pre ++ p :: post) id
      (Playground.runPlugins o id (pre ++ p :: post)
        (Playground.startJobInit o s id job))).1,
    (Playground.startJobFinish o (pre ++ p :: post) id
      (Playground.runPlugins o id (pre ++ p :: post)
        (Playground.startJobInit o s id job))).2,
    e1, ?_, ?_, rfl, ?_, ?_, ?_⟩
  · rw [hevfin, hevP]
    simp
  · intro q hq hskq
    have hcfg1 : (Playground.runOnePlugin o id p (Playground.runPlugins o id pre
        (Playground.startJobInit o s id job))).job.config = job.config := by
      rw [(Playground.runOnePlugin_frame o id p (Playground.runPlugins o id pre
        (Playground.startJobInit o s id job))).2.1, hmidcfg]
    have hmem := Playground.runPlugins_pluginStart o id post
      (Playground.runOnePlugin o id p (Playground.runPlugins o id pre
        (Playground.startJobInit o s id job)))
      { rM with error := some { message := msg, plugin := some p.name, timestamp := ts0 } }
      q hres1 hq (by rw [hcfg1]; exact hskq)
    rw [hevfin]
    apply List.mem_append_left
    rw [hdec]
    exact hmem
  · rw [hevfin]
    simp
  · refine ⟨{ r2 with
      summary := some (Playground.buildSummary (pre ++ p :: post) r2.metrics)
      progress := (Playground.startJobFinish o (pre ++ p :: post) id
        (Playground.runPlugins o id (pre ++ p :: post)
          (Playground.startJobInit o s id job))).2.progress }, ?_⟩
    cases h2 : Playground.lastPluginError t2 with
    | some nm =>
      rw [h2] at herr2
      obtain ⟨ts2, hr2e⟩ := herr2
      refine ⟨{ message := nm.2, plugin := some nm.1, timestamp := ts2 },
        tpre ++ ([PlaygroundEvent.pluginStart id p.name,
          PlaygroundEvent.pluginError id p.name msg] ++ t2), nm,
        ?_, ?_, ?_, rfl, rfl, ?_⟩
      · simp [Playground.startJobFinish, hr2']
      · exact hr2e
      · rw [Playground.lastPluginError_append, Playground.lastPluginError_append, h2]
      · rw [hevfin, hevP]
    | none =>
      rw [h2] at herr2
      refine ⟨{ message := msg, plugin := some p.name, timestamp := ts0 },
        tpre ++ ([PlaygroundEvent.pluginStart id p.name,
          PlaygroundEvent.pluginError id p.name msg] ++ t2), (p.name, msg),
        ?_, ?_, ?_, rfl, rfl, ?_⟩
      · simp [Playground.startJobFinish, hr2']
      · rw [herr2]
      · rw [Playground.lastPluginError_append, Playground.lastPluginError_append, h2]
        rfl
      · rw [hevfin, hevP]
  · intro w hw hsend
    have hcfgF : (Playground.startJobFinish o (pre ++ p :: post) id
        (Playground.runPlugins o id (pre ++ p :: post)
          (Playground.startJobInit o s id job))).2.config = job.config := by
      have hP : (Playground.runPlugins o id (pre ++ p :: post)
          (Playground.startJobInit o s id job)).job.config = job.config := by
        rw [(Playground.runPlugins_frame o id (pre ++ p :: post)
          (Playground.startJobInit o s id job)).2.1]
        rfl
      exact hP
    have hsendF : Playground.shouldSendWebhook
        (Playground.startJobFinish o (pre ++ p :: post) id
          (Playground.runPlugins o id (pre ++ p :: post)
            (Playground.startJobInit o s id job))).2 "completed" = true := by
      rw [Playground.shouldSendWebhook_congr _ (by rw [hcfgF] : _ = job.config)]
      exact hsend
    have hwF : (Playground.startJobFinish o (pre ++ p :: post) id
        (Playground.runPlugins o id (pre ++ p :: post)
          (Playground.startJobInit o s id job))).2.config.webhook = some w := by
      rw [hcfgF]
      exact hw
    have hdel : (Playground.startJobFinish o (pre ++ p :: post) id
        (Playground.runPlugins o id (pre ++ p :: post)
          (Playground.startJobInit o s id job))).1.deliveries =
        (Playground.runPlugins o id (pre ++ p :: post)
          (Playground.startJobInit o s id job)).state.deliveries ++
        Playground.deliveryOf o
          (Playground.startJobFinish o (pre ++ p :: post) id
            (Playground.runPlugins o id (pre ++ p :: post)
              (Playground.startJobInit o s id job))).2
          (PlaygroundEvent.jobComplete id)
          (Playground.runPlugins o id (pre ++ p :: post)
            (Playground.startJobInit o s id job)).state.deliveries.length := rfl
    rw [Playground.deliveryOf_sent o _ (PlaygroundEvent.jobComplete id) _
      rfl hsendF hwF] at hdel
    exact ⟨_, _, hdel, rfl, rfl⟩

/-- Witness for C5: in the state holding the queued job "j1", running startJob
over [boomPlugin, examplePlugin] — where boomPlugin's execute throws "boom" —
still succeeds, emits a pluginError for "boom", and completes the job. -/
theorem C5_plugin_isolation_witness :
    ∃ s2 j2, Playground.startJob (fun _ _ => true)
        ([] ++ boomPlugin :: [examplePlugin]) witState "j1" = some (s2, j2) ∧
      PlaygroundEvent.pluginError "j1" boomPlugin.name "boom" ∈ s2.events ∧
      j2.progress.status = JobStatus.completed := by
  obtain ⟨s2, j2, h1, h2, -, h4, -, -, -⟩ :=
    C5_plugin_isolation (fun _ _ => true) [] [examplePlugin] boomPlugin
      witState "j1" "boom" witPlaygroundJob rfl rfl rfl
  exact ⟨s2, j2, h1, h2, h4⟩
